import Mathlib

/-!
Verification of the web-mode session broker (`runWebMode` and its helpers).

The TypeScript source is shallowly embedded: pure helpers become Lean
functions, the mutable broker closure state becomes explicit state records,
and event handlers become state-transition functions returning the mutated
state together with the list of observable effects (messages sent over the
WebSocket, PTY writes/resizes, process spawns/kills).  JavaScript string
lengths are modelled with `List Char`, journal file contents with `List Nat`
(bytes), JSON numbers with `Rat` (every `JSON.parse` output is a finite
double), and JavaScript truthiness of optional strings / numbers with
explicit helpers.  Filesystem path resolution (`resolve(expandHomePath p)`)
is deterministic per process and is abstracted as an explicit
`resolvePath : String → String` argument; directory validation
(`validateDirectoryPath`) as `validateDir : String → Option String`
(`none` models a thrown error).
-/

set_option maxRecDepth 2000

namespace PiWeb

/-- `const MAX_BUFFER_CHARS = 250_000;` (kept irreducible so that symbolic
`Nat` arithmetic on buffer lengths never unfolds the literal). -/
def MAX_BUFFER_CHARS : Nat := 250000

attribute [irreducible] MAX_BUFFER_CHARS

/-- `const MAX_RECENT_SESSIONS = 80;` -/
def MAX_RECENT_SESSIONS : Nat := 80

/-- `const DEFAULT_REHYDRATE_LIMIT = 96_000;` -/
def DEFAULT_REHYDRATE_LIMIT : Int := 96000

/-- `const MAX_REHYDRATE_LIMIT = 1_000_000;` -/
def MAX_REHYDRATE_LIMIT : Int := 1000000

attribute [irreducible] DEFAULT_REHYDRATE_LIMIT MAX_REHYDRATE_LIMIT

/-- JavaScript `String.prototype.trim` (whitespace stripped from both ends),
written over the character list so that it evaluates by kernel reduction. -/
def jsTrim (s : String) : String :=
  String.mk (((s.data.dropWhile Char.isWhitespace).reverse.dropWhile Char.isWhitespace).reverse)

/-- JavaScript `String.prototype.toLowerCase`, modelled on the ASCII range. -/
def jsToLower (s : String) : String :=
  String.mk (s.data.map Char.toLower)

instance {ε α : Type} [DecidableEq ε] [DecidableEq α] : DecidableEq (Except ε α) := fun x y =>
  match x, y with
  | .error a, .error b =>
    if h : a = b then isTrue (by rw [h]) else isFalse (fun hc => h (Except.error.inj hc))
  | .ok a, .ok b =>
    if h : a = b then isTrue (by rw [h]) else isFalse (fun hc => h (Except.ok.inj hc))
  | .error _, .ok _ => isFalse (fun hc => Except.noConfusion hc)
  | .ok _, .error _ => isFalse (fun hc => Except.noConfusion hc)

/-- JavaScript truthiness of an optional string (`undefined` and `""` are
falsy, every other string truthy). -/
def jsTruthyStr : Option String → Bool
  | none => false
  | some s => s ≠ ""

/-- JavaScript truthiness of an optional number (`undefined` and `0` are
falsy). -/
def jsTruthyNum : Option Int → Bool
  | none => false
  | some n => n ≠ 0

/-! ## Output buffer (§4.3, `appendOutput` and the `spawned.onData` handler)

The in-memory scrollback of one session: `outputBuffer` (a JS string,
modelled as `List Char`) plus the `outputTruncated` flag kept on the
`WebRunningSession` record. -/

/-- The per-session part of one `spawned.onData` invocation
(src lines 2333–2337 of the web-mode module):

```
current.outputBuffer += data;
if (current.outputBuffer.length > MAX_BUFFER_CHARS) {
  current.outputBuffer = current.outputBuffer.slice(current.outputBuffer.length - MAX_BUFFER_CHARS);
  current.outputTruncated = true;
}
```
-/
def onDataChunk (s : List Char × Bool) (data : List Char) : List Char × Bool :=
  let b := s.1 ++ data
  if MAX_BUFFER_CHARS < b.length then
    (b.drop (b.length - MAX_BUFFER_CHARS), true)
  else
    (b, s.2)

/-- `appendOutput` (the global mirror of the active session's buffer):

```
const appendOutput = (data: string): void => {
  if (data.length === 0) return;
  outputBuffer += data;
  if (outputBuffer.length > MAX_BUFFER_CHARS) {
    outputBuffer = outputBuffer.slice(outputBuffer.length - MAX_BUFFER_CHARS);
  }
  ...
};
```
-/
def appendOutput (buffer : List Char) (data : List Char) : List Char :=
  if data.length = 0 then buffer
  else
    let b := buffer ++ data
    if MAX_BUFFER_CHARS < b.length then b.drop (b.length - MAX_BUFFER_CHARS)
    else b

/-- When the buffer is within the cap, the global `appendOutput` trim and the
per-session `onData` trim produce the same string, so the assignment
`current.outputBuffer = outputBuffer` in the active-session branch is
content-preserving. -/
theorem appendOutput_eq_onDataChunk (buffer data : List Char) (t : Bool)
    (h : buffer.length ≤ MAX_BUFFER_CHARS) :
    appendOutput buffer data = (onDataChunk (buffer, t) data).1 := by
  unfold appendOutput onDataChunk
  by_cases hd : data.length = 0
  · have hdata : data = [] := List.length_eq_zero.mp hd
    subst hdata
    simp [Nat.not_lt.mpr h]
  · by_cases hc : MAX_BUFFER_CHARS < (buffer ++ data).length
    · rw [if_neg hd, if_pos hc, if_pos hc]
    · rw [if_neg hd, if_neg hc, if_neg hc]

/-- Step characterization of `onDataChunk` when the appended chunk pushes the
buffer over the cap. -/
theorem onDataChunk_of_gt (s : List Char × Bool) (data : List Char)
    (h : MAX_BUFFER_CHARS < s.1.length + data.length) :
    onDataChunk s data =
      ((s.1 ++ data).drop (s.1.length + data.length - MAX_BUFFER_CHARS), true) := by
  unfold onDataChunk
  rw [if_pos (by rw [List.length_append]; exact h), List.length_append]

/-- Step characterization of `onDataChunk` when the appended chunk stays
within the cap. -/
theorem onDataChunk_of_le (s : List Char × Bool) (data : List Char)
    (h : s.1.length + data.length ≤ MAX_BUFFER_CHARS) :
    onDataChunk s data = (s.1 ++ data, s.2) := by
  unfold onDataChunk
  rw [if_neg (by rw [List.length_append]; omega)]

/-- Invariant carried through a sequence of `onData` appends:
the buffer never exceeds the cap, the flag tracks whether the cumulative
character count ever exceeded the cap, an untruncated buffer holds exactly
the cumulative characters, and the buffer is always a suffix of everything
emitted so far. -/
theorem onDataChunk_fold_inv (chunks : List (List Char)) (s : List Char × Bool)
    (cum : Nat) (J : List Char)
    (hlen : s.1.length ≤ MAX_BUFFER_CHARS)
    (htr : s.2 = true ↔ MAX_BUFFER_CHARS < cum)
    (hnt : s.2 = false → s.1.length = cum)
    (hsuf : s.1 <:+ J) :
    let fin := chunks.foldl onDataChunk s
    let total := cum + (chunks.map List.length).sum
    fin.1.length ≤ MAX_BUFFER_CHARS ∧
    (fin.2 = true ↔ MAX_BUFFER_CHARS < total) ∧
    (fin.2 = false → fin.1.length = total) ∧
    fin.1 <:+ J ++ chunks.flatten := by
  induction chunks generalizing s cum J with
  | nil =>
    simpa using ⟨hlen, htr, hnt, hsuf⟩
  | cons c rest ih =>
    simp only [List.foldl_cons, List.map_cons, List.sum_cons, List.flatten_cons]
    have hsuf' : s.1 ++ c <:+ J ++ c := by
      obtain ⟨t, ht⟩ := hsuf
      exact ⟨t, by rw [← List.append_assoc, ht]⟩
    by_cases hcap : MAX_BUFFER_CHARS < s.1.length + c.length
    · rw [onDataChunk_of_gt s c hcap]
      have hlen' : ((s.1 ++ c).drop (s.1.length + c.length - MAX_BUFFER_CHARS)).length
          = MAX_BUFFER_CHARS := by
        rw [List.length_drop, List.length_append]
        omega
      have hcum' : MAX_BUFFER_CHARS < cum + c.length := by
        cases hb : s.2 with
        | false => have := hnt hb; omega
        | true => have := htr.mp hb; omega
      have h4 : (s.1 ++ c).drop (s.1.length + c.length - MAX_BUFFER_CHARS) <:+ J ++ c :=
        (List.drop_suffix _ _).trans hsuf'
      have harg1 : ((s.1 ++ c).drop (s.1.length + c.length - MAX_BUFFER_CHARS), true).1.length
          ≤ MAX_BUFFER_CHARS := le_of_eq hlen'
      have harg2 : ((s.1 ++ c).drop (s.1.length + c.length - MAX_BUFFER_CHARS), true).2 = true ↔
          MAX_BUFFER_CHARS < cum + c.length := ⟨fun _ => hcum', fun _ => rfl⟩
      have harg3 : ((s.1 ++ c).drop (s.1.length + c.length - MAX_BUFFER_CHARS), true).2 = false →
          ((s.1 ++ c).drop (s.1.length + c.length - MAX_BUFFER_CHARS), true).1.length
            = cum + c.length := fun hfalse => absurd hfalse (by simp)
      have hrest := ih ((s.1 ++ c).drop (s.1.length + c.length - MAX_BUFFER_CHARS), true)
        (cum + c.length) (J ++ c) harg1 harg2 harg3 h4
      simp only at hrest
      refine ⟨hrest.1, ?_, ?_, ?_⟩
      · rw [hrest.2.1]; omega
      · intro hfin
        rw [hrest.2.2.1 hfin]; omega
      · simpa [List.append_assoc] using hrest.2.2.2
    · push_neg at hcap
      rw [onDataChunk_of_le s c hcap]
      have htr' : s.2 = true ↔ MAX_BUFFER_CHARS < cum + c.length := by
        constructor
        · intro htt
          have := htr.mp htt
          omega
        · intro hlt
          cases hb : s.2 with
          | true => rfl
          | false =>
            have := hnt hb
            omega
      have hnt' : s.2 = false → (s.1 ++ c).length = cum + c.length := by
        intro hf
        rw [List.length_append, hnt hf]
      have hlen2 : (s.1 ++ c).length ≤ MAX_BUFFER_CHARS := by
        rw [List.length_append]; exact hcap
      have hrest := ih (s.1 ++ c, s.2) (cum + c.length) (J ++ c) hlen2 htr' hnt' hsuf'
      simp only at hrest
      refine ⟨hrest.1, ?_, ?_, ?_⟩
      · rw [hrest.2.1]; omega
      · intro hfin
        rw [hrest.2.2.1 hfin]; omega
      · simpa [List.append_assoc] using hrest.2.2.2

/-- C2: for every sequence of PTY output chunks appended to a session's
output buffer (starting from the fresh session state `("", false)`), after
each append the buffer length is at most `MAX_BUFFER_CHARS`, the
`outputTruncated` flag is true iff the cumulative appended characters
exceeded that cap, and trimming removes characters only from the front
(the buffer is a suffix of everything emitted). -/
theorem c2_buffer_bound (chunks : List (List Char)) :
    ((chunks.foldl onDataChunk ([], false)).1.length ≤ MAX_BUFFER_CHARS) ∧
    ((chunks.foldl onDataChunk ([], false)).2 = true ↔
      MAX_BUFFER_CHARS < (chunks.map List.length).sum) ∧
    (chunks.foldl onDataChunk ([], false)).1 <:+ chunks.flatten := by
  have h := onDataChunk_fold_inv chunks ([], false) 0 []
    (by simp) (by simp) (by simp) (by simp)
  simp only at h
  exact ⟨h.1, by simpa using h.2.1, by simpa using h.2.2.2⟩

/-! ## Journal rehydrate (§4.3, `buildSessionRehydrateResponse`)

The journal file is modelled by its byte content (`List Nat`), with
`totalBytes = journal.length` (the `stat` size of the append-only file).
Request parameters arrive through `parseIntegerParam` as `Option Int`
(`none` models a missing or unparsable query parameter).  The `handle.read`
call at offset `cursor` for `requestedBytes` bytes is the corresponding
slice of the file content. -/

/-- `clampInteger(value, fallback, min, max)`:

```
function clampInteger(value: unknown, fallback: number, min: number, max: number): number {
  if (typeof value !== "number" || !Number.isFinite(value)) return fallback;
  return Math.max(min, Math.min(max, Math.floor(value)));
}
```

(`parseIntegerParam` only ever produces integers, so `Math.floor` is the
identity here). -/
def clampInteger (value : Option Int) (fallback mn mx : Int) : Int :=
  match value with
  | none => fallback
  | some v => max mn (min mx v)

/-- The journal-read core of `buildSessionRehydrateResponse` (src lines
2514–2552): clamping of `cursor` and `limit`, the positioned read, and the
`nextCursor` computation.  Session resolution and file I/O are abstracted
into the `journal` byte-list argument. -/
def buildSessionRehydrateResponse (journal : List Nat) (rawCursor rawLimit : Option Int) :
    Int × Int × Option Int × List Nat :=
  let totalBytes : Int := journal.length
  let cursor := clampInteger rawCursor 0 0 totalBytes
  let limit := clampInteger rawLimit DEFAULT_REHYDRATE_LIMIT 1 MAX_REHYDRATE_LIMIT
  let maxReadable := max 0 (totalBytes - cursor)
  let requestedBytes := min limit maxReadable
  let text := if 0 < requestedBytes then (journal.drop cursor.toNat).take requestedBytes.toNat else []
  let bytesRead : Int := text.length
  let nextCursor := if cursor + bytesRead < totalBytes then some (cursor + bytesRead) else none
  (totalBytes, cursor, nextCursor, text)

/-- The clamped cursor of a rehydrate request. -/
def rehydrateCursor (journal : List Nat) (rawCursor : Option Int) : Int :=
  clampInteger rawCursor 0 0 (journal.length : Int)

/-- The clamped limit of a rehydrate request. -/
def rehydrateLimit (rawLimit : Option Int) : Int :=
  clampInteger rawLimit DEFAULT_REHYDRATE_LIMIT 1 MAX_REHYDRATE_LIMIT

/-- The returned `text` slice of a rehydrate request. -/
def rehydrateText (journal : List Nat) (rawCursor rawLimit : Option Int) : List Nat :=
  (buildSessionRehydrateResponse journal rawCursor rawLimit).2.2.2

/-- `clampInteger` really clamps: whenever the fallback itself lies in
`[mn, mx]` and `mn ≤ mx`, the result lies in `[mn, mx]`. -/
theorem clampInteger_mem (value : Option Int) (fallback mn mx : Int)
    (hf1 : mn ≤ fallback) (hf2 : fallback ≤ mx) (hmn : mn ≤ mx) :
    mn ≤ clampInteger value fallback mn mx ∧ clampInteger value fallback mn mx ≤ mx := by
  cases value with
  | none => exact ⟨hf1, hf2⟩
  | some v =>
    exact ⟨le_max_left _ _, max_le hmn (min_le_left _ _)⟩

theorem clampInteger_mem_concrete :
    (0:Int) ≤ clampInteger (some (-7)) 0 0 12 ∧ clampInteger (some (-7)) 0 0 12 ≤ 12 :=
  clampInteger_mem (some (-7)) 0 0 12 le_rfl (by norm_num) (by norm_num)

theorem default_limit_bounds :
    (1:Int) ≤ DEFAULT_REHYDRATE_LIMIT ∧ DEFAULT_REHYDRATE_LIMIT ≤ MAX_REHYDRATE_LIMIT := by
  rw [DEFAULT_REHYDRATE_LIMIT, MAX_REHYDRATE_LIMIT]
  norm_num

theorem rehydrateCursor_bounds (journal : List Nat) (rawCursor : Option Int) :
    0 ≤ rehydrateCursor journal rawCursor ∧
      rehydrateCursor journal rawCursor ≤ (journal.length : Int) :=
  clampInteger_mem rawCursor 0 0 (journal.length : Int) le_rfl (Int.ofNat_nonneg _)
    (Int.ofNat_nonneg _)

theorem rehydrateLimit_bounds (rawLimit : Option Int) :
    1 ≤ rehydrateLimit rawLimit ∧ rehydrateLimit rawLimit ≤ MAX_REHYDRATE_LIMIT :=
  clampInteger_mem rawLimit DEFAULT_REHYDRATE_LIMIT 1 MAX_REHYDRATE_LIMIT
    default_limit_bounds.1 default_limit_bounds.2
    (le_trans default_limit_bounds.1 default_limit_bounds.2)

/-- Componentwise characterization of `buildSessionRehydrateResponse`. -/
theorem buildSessionRehydrateResponse_eq (journal : List Nat) (rawCursor rawLimit : Option Int) :
    buildSessionRehydrateResponse journal rawCursor rawLimit =
      ((journal.length : Int), rehydrateCursor journal rawCursor,
        (if rehydrateCursor journal rawCursor +
              min (rehydrateLimit rawLimit)
                ((journal.length : Int) - rehydrateCursor journal rawCursor) <
            (journal.length : Int) then
          some (rehydrateCursor journal rawCursor +
            min (rehydrateLimit rawLimit)
              ((journal.length : Int) - rehydrateCursor journal rawCursor))
        else none),
        (journal.drop (rehydrateCursor journal rawCursor).toNat).take
          (min (rehydrateLimit rawLimit)
            ((journal.length : Int) - rehydrateCursor journal rawCursor)).toNat) := by
  obtain ⟨hc0, hcT⟩ := rehydrateCursor_bounds journal rawCursor
  obtain ⟨hl1, hlM⟩ := rehydrateLimit_bounds rawLimit
  unfold rehydrateCursor at hc0 hcT
  unfold rehydrateLimit at hl1 hlM
  simp only [buildSessionRehydrateResponse, rehydrateCursor, rehydrateLimit]
  set T : Int := (journal.length : Int) with hT
  set c : Int := clampInteger rawCursor 0 0 T with hcdef
  set L : Int := clampInteger rawLimit DEFAULT_REHYDRATE_LIMIT 1 MAX_REHYDRATE_LIMIT with hLdef
  rw [show max 0 (T - c) = T - c from max_eq_right (by omega)]
  have htext : (if 0 < min L (T - c) then
        (journal.drop c.toNat).take (min L (T - c)).toNat
      else ([] : List Nat)) =
      (journal.drop c.toNat).take (min L (T - c)).toNat := by
    by_cases hpos : 0 < min L (T - c)
    · rw [if_pos hpos]
    · rw [if_neg hpos]
      have hz : (min L (T - c)).toNat = 0 := by omega
      rw [hz, List.take_zero]
  rw [htext]
  have hlen : (((journal.drop c.toNat).take (min L (T - c)).toNat).length : Int)
      = min L (T - c) := by
    rw [List.length_take, List.length_drop]
    omega
  rw [hlen]

/-- C3: for every rehydrate request, the supplied cursor is clamped to
`[0, totalBytes]` and the supplied limit to `[1, MAX_REHYDRATE_LIMIT]`; the
returned text is exactly the journal bytes in
`[cursor, cursor + min(limit, totalBytes - cursor))`; `nextCursor` is
`cursor + bytesRead` while that is below `totalBytes` and `null` once the
read reaches `totalBytes`. -/
theorem c3_rehydrate_contract (journal : List Nat) (rawCursor rawLimit : Option Int) :
    (0 ≤ (buildSessionRehydrateResponse journal rawCursor rawLimit).2.1 ∧
      (buildSessionRehydrateResponse journal rawCursor rawLimit).2.1 ≤ (journal.length : Int)) ∧
    (1 ≤ rehydrateLimit rawLimit ∧ rehydrateLimit rawLimit ≤ MAX_REHYDRATE_LIMIT) ∧
    (buildSessionRehydrateResponse journal rawCursor rawLimit).2.2.2 =
      (journal.drop (rehydrateCursor journal rawCursor).toNat).take
        (min (rehydrateLimit rawLimit)
          ((journal.length : Int) - rehydrateCursor journal rawCursor)).toNat ∧
    (((buildSessionRehydrateResponse journal rawCursor rawLimit).2.2.2.length : Int) =
      min (rehydrateLimit rawLimit)
        ((journal.length : Int) - rehydrateCursor journal rawCursor)) ∧
    (∀ n : Int, (buildSessionRehydrateResponse journal rawCursor rawLimit).2.2.1 = some n ↔
      (rehydrateCursor journal rawCursor +
          ((buildSessionRehydrateResponse journal rawCursor rawLimit).2.2.2.length : Int)
            < (journal.length : Int) ∧
        n = rehydrateCursor journal rawCursor +
          ((buildSessionRehydrateResponse journal rawCursor rawLimit).2.2.2.length : Int))) ∧
    ((buildSessionRehydrateResponse journal rawCursor rawLimit).2.2.1 = none ↔
      rehydrateCursor journal rawCursor +
        ((buildSessionRehydrateResponse journal rawCursor rawLimit).2.2.2.length : Int)
        = (journal.length : Int)) := by
  obtain ⟨hc0, hcT⟩ := rehydrateCursor_bounds journal rawCursor
  obtain ⟨hl1, hlM⟩ := rehydrateLimit_bounds rawLimit
  rw [buildSessionRehydrateResponse_eq journal rawCursor rawLimit]
  simp only
  have hlen : (((journal.drop (rehydrateCursor journal rawCursor).toNat).take
      (min (rehydrateLimit rawLimit)
        ((journal.length : Int) - rehydrateCursor journal rawCursor)).toNat).length : Int)
      = min (rehydrateLimit rawLimit)
          ((journal.length : Int) - rehydrateCursor journal rawCursor) := by
    unfold rehydrateCursor at hc0 hcT
    unfold rehydrateLimit at hl1 hlM
    unfold rehydrateCursor rehydrateLimit
    rw [List.length_take, List.length_drop]
    omega
  rw [hlen]
  refine ⟨⟨hc0, hcT⟩, ⟨hl1, hlM⟩, trivial, rfl, ?_, ?_⟩
  · intro n
    by_cases hlt : rehydrateCursor journal rawCursor +
        min (rehydrateLimit rawLimit)
          ((journal.length : Int) - rehydrateCursor journal rawCursor) < (journal.length : Int)
    · rw [if_pos hlt]
      constructor
      · intro hsome
        exact ⟨hlt, (Option.some_inj.mp hsome).symm⟩
      · rintro ⟨-, rfl⟩
        rfl
    · rw [if_neg hlt]
      constructor
      · intro hnone
        exact absurd hnone (by simp)
      · rintro ⟨hlt2, -⟩
        exact absurd hlt2 hlt
  · by_cases hlt : rehydrateCursor journal rawCursor +
        min (rehydrateLimit rawLimit)
          ((journal.length : Int) - rehydrateCursor journal rawCursor) < (journal.length : Int)
    · rw [if_pos hlt]
      constructor
      · intro hnone
        exact absurd hnone (by simp)
      · intro heq
        omega
    · rw [if_neg hlt]
      have : min (rehydrateLimit rawLimit)
          ((journal.length : Int) - rehydrateCursor journal rawCursor)
          ≤ (journal.length : Int) - rehydrateCursor journal rawCursor := min_le_right _ _
      constructor
      · intro _
        omega
      · intro _
        rfl

/-- C4 (corrected): the split-read concatenation property holds for every
split point `k ≥ 1` (also `k = 0` on an empty journal) on journals no larger
than `MAX_REHYDRATE_LIMIT`: reading `[0, k)` then `[k, totalBytes)`
concatenates to the single full read, which reproduces the journal
byte-for-byte.  (For `k = 0` on a nonempty journal the requested limit `0`
is clamped up to `1`, so the first read returns one byte instead of zero —
see the counterexample — and a journal above `MAX_REHYDRATE_LIMIT` cannot be
fetched in one full read at all.) -/
theorem c4_split_read_amended (journal : List Nat) (k : Nat) (h1 : 1 ≤ k)
    (h2 : k ≤ journal.length) (h3 : (journal.length : Int) ≤ MAX_REHYDRATE_LIMIT) :
    rehydrateText journal (some 0) (some k) ++
        rehydrateText journal (some k) (some ((journal.length : Int) - k)) =
      rehydrateText journal (some 0) (some (journal.length : Int)) ∧
    rehydrateText journal (some 0) (some (journal.length : Int)) = journal := by
  have hM1 : (1:Int) ≤ MAX_REHYDRATE_LIMIT :=
    le_trans default_limit_bounds.1 default_limit_bounds.2
  have htext : ∀ rc rl : Option Int, rehydrateText journal rc rl =
      (journal.drop (rehydrateCursor journal rc).toNat).take
        (min (rehydrateLimit rl) ((journal.length : Int) - rehydrateCursor journal rc)).toNat := by
    intro rc rl
    rw [rehydrateText, buildSessionRehydrateResponse_eq]
  have hcur0 : rehydrateCursor journal (some 0) = 0 := by
    simp only [rehydrateCursor, clampInteger]
    omega
  have hcurk : rehydrateCursor journal (some k) = (k : Int) := by
    simp only [rehydrateCursor, clampInteger]
    omega
  have hlimk : rehydrateLimit (some (k : Int)) = (k : Int) := by
    simp only [rehydrateLimit, clampInteger]
    omega
  have hlimT : rehydrateLimit (some (journal.length : Int)) = (journal.length : Int) := by
    simp only [rehydrateLimit, clampInteger]
    omega
  have hfull : rehydrateText journal (some 0) (some (journal.length : Int)) = journal := by
    rw [htext, hcur0, hlimT]
    have : (min (journal.length : Int) ((journal.length : Int) - 0)).toNat
        = journal.length := by omega
    rw [this]
    simp
  refine ⟨?_, hfull⟩
  rw [hfull]
  have h1' : rehydrateText journal (some 0) (some k) = journal.take k := by
    rw [htext, hcur0, hlimk]
    have : (min (k : Int) ((journal.length : Int) - 0)).toNat = k := by omega
    rw [this]
    simp
  have h2' : rehydrateText journal (some k) (some ((journal.length : Int) - k)) =
      journal.drop k := by
    rw [htext, hcurk]
    have hmin : (min (rehydrateLimit (some ((journal.length : Int) - k)))
        ((journal.length : Int) - (k : Int))).toNat = journal.length - k := by
      have : 1 ≤ rehydrateLimit (some ((journal.length : Int) - k)) ∧
          rehydrateLimit (some ((journal.length : Int) - k)) ≤ MAX_REHYDRATE_LIMIT :=
        rehydrateLimit_bounds _
      have hle : rehydrateLimit (some ((journal.length : Int) - k)) =
          max 1 (min MAX_REHYDRATE_LIMIT ((journal.length : Int) - k)) := by
        simp only [rehydrateLimit, clampInteger]
      omega
    rw [hmin]
    have hk : ((k : Int)).toNat = k := by omega
    rw [hk]
    have : (journal.drop k).length = journal.length - k := by
      rw [List.length_drop]
    rw [← this, List.take_length]
  rw [h1', h2', List.take_append_drop]

/-- C4 counterexample: on the one-byte journal `[55]` with split point
`k = 0`, the read of `[0, 0)` (requested limit `0`, clamped up to `1`)
returns one byte, so the concatenation of the two reads is `[55, 55]`,
which differs from the single full read `[55]`. -/
theorem c4_split_read_counterexample :
    rehydrateText [55] (some 0) (some 0) ++ rehydrateText [55] (some 0) (some 1)
      ≠ rehydrateText [55] (some 0) (some 1) := by
  have hM1 : (1:Int) ≤ MAX_REHYDRATE_LIMIT :=
    le_trans default_limit_bounds.1 default_limit_bounds.2
  have hcur : rehydrateCursor [55] (some 0) = 0 := by
    simp only [rehydrateCursor, clampInteger]
    omega
  have hlim0 : rehydrateLimit (some 0) = 1 := by
    simp only [rehydrateLimit, clampInteger]
    omega
  have hlim1 : rehydrateLimit (some 1) = 1 := by
    simp only [rehydrateLimit, clampInteger]
    omega
  have ha : rehydrateText [55] (some 0) (some 0) = [55] := by
    rw [rehydrateText, buildSessionRehydrateResponse_eq, hcur, hlim0]
    norm_num
  have hb : rehydrateText [55] (some 0) (some 1) = [55] := by
    rw [rehydrateText, buildSessionRehydrateResponse_eq, hcur, hlim1]
    norm_num
  rw [ha, hb]
  decide

/-- Witness for `c4_split_read_amended` at the concrete journal `[7, 8]`
with split point `k = 1`. -/
theorem c4_split_read_amended_witness :
    (rehydrateText [7, 8] (some 0) (some 1) ++
        rehydrateText [7, 8] (some 1) (some (((2:Nat) : Int) - 1)) =
      rehydrateText [7, 8] (some 0) (some ((2:Nat) : Int)) ∧
    rehydrateText [7, 8] (some 0) (some ((2:Nat) : Int)) = [7, 8]) := by
  have h := c4_split_read_amended [7, 8] 1 (by norm_num) (by norm_num)
    (by rw [MAX_REHYDRATE_LIMIT]; norm_num)
  simpa using h

/-! ## Launch configuration resolver (§4.5)

`normalizeOptionalText`, `normalizeSessionPath`, `extractLaunchDefaults`,
the child-argument derivation helpers, and `resolveLaunchFromRequest`.
`resolve(expandHomePath p)` is abstracted as `resolvePath`, and the
`stat`-based `validateDirectoryPath` as `validateDir` (`none` = throw). -/

/-- `normalizeOptionalText`: trim, empty becomes `undefined`.  A non-string
input is modelled as `none`. -/
def normalizeOptionalText : Option String → Option String
  | none => none
  | some s =>
    let normalized := jsTrim s
    if normalized.length > 0 then some normalized else none

/-- `normalizeSessionPath`: trim then resolve.  (`!normalized` only catches
`undefined` here since `normalizeOptionalText` never returns `""`.) -/
def normalizeSessionPath (resolvePath : String → String) (value : Option String) :
    Option String :=
  match normalizeOptionalText value with
  | none => none
  | some normalized => some (resolvePath normalized)

/-- `WebLaunchDefaults` (provider/model/sessionPath/noSession captured from
the broker's own startup arguments). -/
structure WebLaunchDefaults where
  provider : Option String
  model : Option String
  sessionPath : Option String
  noSession : Bool
deriving DecidableEq, Repr

/-- `WebLaunchConfig`. -/
structure WebLaunchConfig where
  cwd : String
  projectId : Option String := none
  provider : Option String := none
  model : Option String := none
  sessionPath : Option String := none
  noSession : Bool := false
deriving DecidableEq, Repr

/-- `WebProject` (external project-store entity). -/
structure WebProject where
  id : String
  path : String
  createdAt : String := ""
  updatedAt : String := ""
deriving DecidableEq, Repr

/-- `WebSessionStartRequest` (`none` models an absent field). -/
structure WebSessionStartRequest where
  projectId : Option String := none
  cwd : Option String := none
  provider : Option String := none
  model : Option String := none
  sessionPath : Option String := none
  sessionId : Option String := none
  noSession : Option Bool := none
deriving DecidableEq, Repr

/-- The scanning loop of `extractLaunchDefaults`: later occurrences of each
flag overwrite earlier ones; a value flag at the very end of the list (with
no following value) is ignored. -/
def extractLaunchDefaultsAux :
    List String → Option String → Option String → Option String → Bool → WebLaunchDefaults
  | [], provider, model, sessionPath, noSession =>
    -- `if (sessionPath !== undefined) { noSession = false; }`
    { provider, model, sessionPath,
      noSession := if sessionPath.isSome then false else noSession }
  | "--provider" :: v :: rest, _, model, sessionPath, noSession =>
    extractLaunchDefaultsAux rest (some v) model sessionPath noSession
  | "--model" :: v :: rest, provider, _, sessionPath, noSession =>
    extractLaunchDefaultsAux rest provider (some v) sessionPath noSession
  | "--session" :: v :: rest, provider, model, _, noSession =>
    extractLaunchDefaultsAux rest provider model (some v) noSession
  | "--no-session" :: rest, provider, model, sessionPath, _ =>
    extractLaunchDefaultsAux rest provider model sessionPath true
  | _ :: rest, provider, model, sessionPath, noSession =>
    extractLaunchDefaultsAux rest provider model sessionPath noSession

/-- `extractLaunchDefaults(childArgs)`. -/
def extractLaunchDefaults (childArgs : List String) : WebLaunchDefaults :=
  extractLaunchDefaultsAux childArgs none none none false

/-- `stripOptionWithValue(args, option)`: drops every occurrence of `option`
together with the element that follows it. -/
def stripOptionWithValue : List String → String → List String
  | [], _ => []
  | [a], opt => if a = opt then [] else [a]
  | a :: v :: rest, opt =>
    if a = opt then stripOptionWithValue rest opt
    else a :: stripOptionWithValue (v :: rest) opt

/-- `upsertOptionWithValue(args, option, value)`. -/
def upsertOptionWithValue (args : List String) (opt : String) (value : Option String) :
    List String :=
  let next := stripOptionWithValue args opt
  match value with
  | none => next
  | some v => next ++ [opt, v]

/-- `upsertBooleanFlag(args, flag, enabled)`. -/
def upsertBooleanFlag (args : List String) (flag : String) (enabled : Bool) : List String :=
  let next := args.filter (fun entry => entry ≠ flag)
  if enabled then next ++ [flag] else next

/-- `stripBooleanFlags(args, flags)`. -/
def stripBooleanFlags (args : List String) (flags : List String) : List String :=
  args.filter (fun entry => ¬ flags.contains entry)

/-- `buildChildArgsForLaunch(baseChildArgs, launch)`. -/
def buildChildArgsForLaunch (baseChildArgs : List String) (launch : WebLaunchConfig) :
    List String :=
  let args1 := stripBooleanFlags baseChildArgs ["--continue", "-c", "--resume", "-r"]
  let args2 := upsertOptionWithValue args1 "--provider" launch.provider
  let args3 := upsertOptionWithValue args2 "--model" launch.model
  let args4 := upsertOptionWithValue args3 "--session" launch.sessionPath
  upsertBooleanFlag args4 "--no-session"
    (if jsTruthyStr launch.sessionPath then false else launch.noSession)

/-- A character allowed in a normalized project id (`[a-z0-9_-]`). -/
def isProjectIdChar (c : Char) : Bool :=
  (('a' ≤ c ∧ c ≤ 'z') ∨ ('0' ≤ c ∧ c ≤ '9') ∨ c = '_' ∨ c = '-' : Prop)

/-- Collapse runs of `'-'` into a single `'-'` (the dash-run replacement). -/
def collapseDashes : List Char → List Char
  | [] => []
  | c :: rest =>
    let tail := collapseDashes rest
    if c = '-' then
      match tail with
      | '-' :: t => '-' :: t
      | _ => c :: tail
    else c :: tail

/-- Strip one leading and one trailing dash (the edge-anchored replacement;
after collapsing there is at most one dash at each edge). -/
def stripEdgeDashes (l : List Char) : List Char :=
  let l1 := match l with
    | '-' :: t => t
    | other => other
  match l1.reverse with
  | '-' :: t => t.reverse
  | _ => l1

/-- `normalizeProjectId`: lowercase + trim, replace disallowed characters by
`'-'` and collapse dash runs (replacing each disallowed character first and
collapsing afterwards yields the same result as replacing maximal runs),
strip edge dashes, reject the empty result.  `toLower` models the ASCII
range of JavaScript `toLowerCase`. -/
def normalizeProjectId (value : String) : Option String :=
  let trimmed := jsToLower (jsTrim value)
  if trimmed = "" then none
  else
    let replaced := trimmed.toList.map (fun c => if isProjectIdChar c then c else '-')
    let normalized := stripEdgeDashes (collapseDashes replaced)
    if normalized = [] then none
    else if normalized.all isProjectIdChar then some (String.mk normalized)
    else none

/-- `findProjectById(rawProjectId)`. -/
def findProjectById (projects : List WebProject) (rawProjectId : String) : Option WebProject :=
  match normalizeProjectId rawProjectId with
  | none => none
  | some normalized => projects.find? (fun project => project.id = normalized)

/-- `const provider = normalizeOptionalText(payload.provider) ?? fallbackLaunch.provider;` -/
def resolvedProvider (payload : WebSessionStartRequest) (fallbackLaunch : WebLaunchConfig) :
    Option String :=
  (normalizeOptionalText payload.provider).or fallbackLaunch.provider

/-- `const model = normalizeOptionalText(payload.model) ?? fallbackLaunch.model;` -/
def resolvedModel (payload : WebSessionStartRequest) (fallbackLaunch : WebLaunchConfig) :
    Option String :=
  (normalizeOptionalText payload.model).or fallbackLaunch.model

/-- `const requestedSessionPath = normalizeSessionPath(payload.sessionPath ??
(options?.allowFallbackSessionPath === true ? fallbackLaunch.sessionPath : undefined));` -/
def requestedSessionPathOf (resolvePath : String → String) (payload : WebSessionStartRequest)
    (fallbackLaunch : WebLaunchConfig) (allowFallbackSessionPath : Bool) : Option String :=
  normalizeSessionPath resolvePath
    (match payload.sessionPath with
     | some sp => some sp
     | none => if allowFallbackSessionPath then fallbackLaunch.sessionPath else none)

/-- `const noSession = requestedSessionPath ? false : requestedNoSession;` where
`requestedNoSession = typeof payload.noSession === "boolean" ? payload.noSession
: fallbackLaunch.noSession`. -/
def resolvedNoSession (resolvePath : String → String) (payload : WebSessionStartRequest)
    (fallbackLaunch : WebLaunchConfig) (allowFallbackSessionPath : Bool) : Bool :=
  if jsTruthyStr (requestedSessionPathOf resolvePath payload fallbackLaunch
      allowFallbackSessionPath) then false
  else payload.noSession.getD fallbackLaunch.noSession

/-- `resolveLaunchFromRequest(payload, fallbackLaunch, options)`.  A thrown
error is an `Except.error` carrying the message; the `const` bindings of the
source are the named helper definitions above. -/
def resolveLaunchFromRequest (resolvePath : String → String) (projects : List WebProject)
    (validateDir : String → Option String) (payload : WebSessionStartRequest)
    (fallbackLaunch : WebLaunchConfig) (allowFallbackSessionPath : Bool) :
    Except String WebLaunchConfig :=
  match normalizeOptionalText payload.projectId with
  | some requestedProject =>
    match findProjectById projects requestedProject with
    | none => .error ("Unknown project: " ++ requestedProject)
    | some project =>
      .ok { projectId := some project.id, cwd := project.path,
            provider := resolvedProvider payload fallbackLaunch,
            model := resolvedModel payload fallbackLaunch,
            sessionPath := requestedSessionPathOf resolvePath payload fallbackLaunch
              allowFallbackSessionPath,
            noSession := resolvedNoSession resolvePath payload fallbackLaunch
              allowFallbackSessionPath }
  | none =>
    match normalizeOptionalText payload.cwd with
    | some requestedCwd =>
      match validateDir requestedCwd with
      | none => .error ("Not a directory: " ++ requestedCwd)
      | some cwd =>
        .ok { cwd, projectId := none,
              provider := resolvedProvider payload fallbackLaunch,
              model := resolvedModel payload fallbackLaunch,
              sessionPath := requestedSessionPathOf resolvePath payload fallbackLaunch
                allowFallbackSessionPath,
              noSession := resolvedNoSession resolvePath payload fallbackLaunch
                allowFallbackSessionPath }
    | none =>
      match validateDir fallbackLaunch.cwd with
      | none => .error ("Not a directory: " ++ fallbackLaunch.cwd)
      | some cwd =>
        .ok { cwd, projectId := fallbackLaunch.projectId,
              provider := resolvedProvider payload fallbackLaunch,
              model := resolvedModel payload fallbackLaunch,
              sessionPath := requestedSessionPathOf resolvePath payload fallbackLaunch
                allowFallbackSessionPath,
              noSession := resolvedNoSession resolvePath payload fallbackLaunch
                allowFallbackSessionPath }

/-- On every successful launch resolution, the `noSession` field is computed
as `requestedSessionPath ? false : requestedNoSession`, i.e. it is `false`
whenever the resolved `sessionPath` is truthy, regardless of the `noSession`
flag in the request. -/
theorem resolveLaunchFromRequest_noSession (resolvePath : String → String)
    (projects : List WebProject) (validateDir : String → Option String)
    (payload : WebSessionStartRequest) (fallbackLaunch : WebLaunchConfig)
    (allowFallbackSessionPath : Bool) (launch : WebLaunchConfig)
    (hres : resolveLaunchFromRequest resolvePath projects validateDir payload
      fallbackLaunch allowFallbackSessionPath = .ok launch) :
    launch.noSession = (if jsTruthyStr launch.sessionPath then false
      else payload.noSession.getD fallbackLaunch.noSession) := by
  unfold resolveLaunchFromRequest at hres
  split at hres
  · split at hres
    · exact absurd hres (by simp)
    · injection hres with h
      subst h
      simp only [resolvedNoSession]
  · split at hres
    · split at hres
      · exact absurd hres (by simp)
      · injection hres with h
        subst h
        simp only [resolvedNoSession]
    · split at hres
      · exact absurd hres (by simp)
      · injection hres with h
        subst h
        simp only [resolvedNoSession]

/-- The scanning loop of `extractLaunchDefaults` ends with `noSession = false`
whenever a (possibly empty) `--session` value was seen. -/
theorem extractLaunchDefaultsAux_noSession (args : List String)
    (provider model sessionPath : Option String) (noSession : Bool)
    (h : (extractLaunchDefaultsAux args provider model sessionPath noSession).sessionPath.isSome
      = true) :
    (extractLaunchDefaultsAux args provider model sessionPath noSession).noSession = false := by
  induction args, provider, model, sessionPath, noSession using extractLaunchDefaultsAux.induct with
  | case1 provider model sessionPath noSession =>
    simp only [extractLaunchDefaultsAux] at h ⊢
    rw [if_pos h]
  | case2 v rest _ model sessionPath noSession ih =>
    simp only [extractLaunchDefaultsAux] at h ⊢
    exact ih h
  | case3 v rest provider _ sessionPath noSession ih =>
    simp only [extractLaunchDefaultsAux] at h ⊢
    exact ih h
  | case4 v rest provider model _ noSession ih =>
    simp only [extractLaunchDefaultsAux] at h ⊢
    exact ih h
  | case5 rest provider model sessionPath _ ih =>
    simp only [extractLaunchDefaultsAux] at h ⊢
    exact ih h
  | case6 a rest provider model sessionPath noSession h1 h2 h3 h4 ih =>
    simp only [extractLaunchDefaultsAux] at h ⊢
    exact ih h

/-- The derived child argument vector for a launch with a truthy
`sessionPath` (that is not itself the literal flag) omits `--no-session` and
ends with `--session <path>`. -/
theorem buildChildArgsForLaunch_session (base : List String) (launch : WebLaunchConfig)
    (p : String) (hp : launch.sessionPath = some p) (hp1 : p ≠ "")
    (hp2 : p ≠ "--no-session") :
    "--no-session" ∉ buildChildArgsForLaunch base launch ∧
    ∃ l, buildChildArgsForLaunch base launch = l ++ ["--session", p] := by
  have htr : jsTruthyStr launch.sessionPath = true := by
    rw [hp]
    simp [jsTruthyStr, hp1]
  have henabled : (if jsTruthyStr launch.sessionPath then false else launch.noSession)
      = false := by rw [htr]; rfl
  unfold buildChildArgsForLaunch upsertBooleanFlag
  rw [henabled]
  simp only [Bool.false_eq_true, if_false]
  rw [show upsertOptionWithValue
      (upsertOptionWithValue (upsertOptionWithValue
        (stripBooleanFlags base ["--continue", "-c", "--resume", "-r"])
        "--provider" launch.provider) "--model" launch.model) "--session" launch.sessionPath
    = stripOptionWithValue (upsertOptionWithValue (upsertOptionWithValue
        (stripBooleanFlags base ["--continue", "-c", "--resume", "-r"])
        "--provider" launch.provider) "--model" launch.model) "--session"
      ++ ["--session", p] by rw [hp]; rfl]
  rw [List.filter_append]
  constructor
  · intro hmem
    rw [List.mem_append] at hmem
    rcases hmem with hmem | hmem
    · have := (List.mem_filter.mp hmem).2
      simp at this
    · have : ("--no-session" : String) ∈ List.filter
          (fun entry => decide ¬entry = "--no-session") ["--session", p] := hmem
      have := (List.mem_filter.mp this).2
      simp at this
  · refine ⟨List.filter (fun entry => decide ¬entry = "--no-session")
      (stripOptionWithValue (upsertOptionWithValue (upsertOptionWithValue
        (stripBooleanFlags base ["--continue", "-c", "--resume", "-r"])
        "--provider" launch.provider) "--model" launch.model) "--session"), ?_⟩
    have hfilter : List.filter (fun entry => decide ¬entry = "--no-session")
        ["--session", p] = ["--session", p] := by
      simp [hp2]
    rw [hfilter]

/-- C7: for every launch resolution — request overrides
(`resolveLaunchFromRequest`), stored defaults (`extractLaunchDefaults` over
startup arguments) — a non-empty `sessionPath` forces the effective
`noSession` to `false` regardless of any `noSession` flag supplied in the
same request, and the derived child argument vector omits `--no-session` and
ends with `--session <path>`.  (The resolved path is an absolute filesystem
path, hence never empty and never the literal `"--no-session"`; the two side
conditions record that.) -/
theorem c7_session_path_forces_no_session (resolvePath : String → String)
    (projects : List WebProject) (validateDir : String → Option String)
    (payload : WebSessionStartRequest) (fallbackLaunch : WebLaunchConfig)
    (allowFallbackSessionPath : Bool) (launch : WebLaunchConfig) (p : String)
    (base childArgs : List String)
    (hres : resolveLaunchFromRequest resolvePath projects validateDir payload
      fallbackLaunch allowFallbackSessionPath = .ok launch)
    (hp : launch.sessionPath = some p) (hp1 : p ≠ "") (hp2 : p ≠ "--no-session") :
    launch.noSession = false ∧
    ((extractLaunchDefaults childArgs).sessionPath.isSome = true →
      (extractLaunchDefaults childArgs).noSession = false) ∧
    "--no-session" ∉ buildChildArgsForLaunch base launch ∧
    ∃ l, buildChildArgsForLaunch base launch = l ++ ["--session", p] := by
  have h1 := resolveLaunchFromRequest_noSession resolvePath projects validateDir payload
    fallbackLaunch allowFallbackSessionPath launch hres
  have htr : jsTruthyStr launch.sessionPath = true := by
    rw [hp]
    simp [jsTruthyStr, hp1]
  have hns : launch.noSession = false := by
    rw [h1, if_pos htr]
  have h3 := buildChildArgsForLaunch_session base launch p hp hp1 hp2
  exact ⟨hns, fun h => extractLaunchDefaultsAux_noSession childArgs none none none false h,
    h3.1, h3.2⟩

/-- Witness for `c7_session_path_forces_no_session` at a concrete request
carrying both `sessionPath` and `noSession: true`. -/
theorem c7_session_path_forces_no_session_witness :
    ({ cwd := "/repo", projectId := none, provider := none, model := none,
       sessionPath := some "/s.json", noSession := false } : WebLaunchConfig).noSession = false ∧
    ((extractLaunchDefaults ["--session", "x.json"]).sessionPath.isSome = true →
      (extractLaunchDefaults ["--session", "x.json"]).noSession = false) ∧
    "--no-session" ∉ buildChildArgsForLaunch ["--no-session"]
      { cwd := "/repo", projectId := none, provider := none, model := none,
        sessionPath := some "/s.json", noSession := false } ∧
    ∃ l, buildChildArgsForLaunch ["--no-session"]
      { cwd := "/repo", projectId := none, provider := none, model := none,
        sessionPath := some "/s.json", noSession := false } = l ++ ["--session", "/s.json"] :=
  c7_session_path_forces_no_session id [] (fun s => some s)
    { sessionPath := some "/s.json", cwd := some "/repo", noSession := some true }
    { cwd := "/" } false
    { cwd := "/repo", projectId := none, provider := none, model := none,
      sessionPath := some "/s.json", noSession := false }
    "/s.json" ["--no-session"] ["--session", "x.json"]
    (by decide) rfl (by decide) (by decide)

/-! ## Lifecycle queue (§4.1/§5, `enqueueLifecycle`)

```
const enqueueLifecycle = async <T>(operation: () => Promise<T>): Promise<T> => {
  const run = lifecycleQueue.then(operation, operation);
  lifecycleQueue = run.then(
    () => undefined,
    () => undefined,
  );
  return await run;
};
```

Denotational promise model: a promise is its settlement time (a virtual
clock value) together with its outcome; `p.then(f, g)` invokes `f` or `g` at
`p`'s settlement time and adopts the settlement of the promise the handler
returns.  A queued operation is abstracted by its running time and its
outcome: started at time `t` it settles at `t + dur`. -/

/-- A settled JavaScript promise: settlement time and outcome. -/
structure JsPromise (α : Type) where
  settleTime : Nat
  result : Except String α
deriving DecidableEq

/-- `p.then(onOk, onErr)` with both handler slots supplied: the matching
handler runs once `p` settles (at `p.settleTime`) and the combined promise
adopts the settlement of the promise returned by the handler. -/
def JsPromise.thenBoth {α β : Type} (p : JsPromise α) (onOk : α → Nat → JsPromise β)
    (onErr : String → Nat → JsPromise β) : JsPromise β :=
  match p.result with
  | .ok a => onOk a p.settleTime
  | .error e => onErr e p.settleTime

/-- A lifecycle operation, abstracted by how long it runs and whether its
promise resolves or rejects. -/
structure LifecycleOp where
  dur : Nat
  result : Except String Unit
deriving DecidableEq

/-- Invoking the operation at time `t` yields a promise settling at
`t + dur` with the operation's outcome. -/
def LifecycleOp.run (op : LifecycleOp) (t : Nat) : JsPromise Unit :=
  ⟨t + op.dur, op.result⟩

/-- One `enqueueLifecycle(operation)` call: returns the `run` promise and the
updated `lifecycleQueue`.  `operation` is passed as both the fulfillment and
the rejection handler of the previous queue promise, and the new queue
promise swallows both outcomes of `run`. -/
def enqueueLifecycle (op : LifecycleOp) (lifecycleQueue : JsPromise Unit) :
    JsPromise Unit × JsPromise Unit :=
  let run := lifecycleQueue.thenBoth (fun _ t => op.run t) (fun _ t => op.run t)
  let newQueue := run.thenBoth (fun _ t => ⟨t, .ok ()⟩) (fun _ t => ⟨t, .ok ()⟩)
  (run, newQueue)

/-- Submit a list of operations in order, recording for each one its start
time and its `run` promise. -/
def runLifecycle : List LifecycleOp → JsPromise Unit → List (Nat × JsPromise Unit)
  | [], _ => []
  | op :: rest, queue =>
    let (run, newQueue) := enqueueLifecycle op queue
    (queue.settleTime, run) :: runLifecycle rest newQueue

/-- The sequential-execution relation: given the settlement time `t` of the
previous queue promise, each recorded operation starts exactly at `t`, its
`run` promise really is the operation invoked at that start time (so the
operation runs whether or not any predecessor rejected), and the rest of
the chain continues from its settlement time. -/
def ChainRuns : List LifecycleOp → Nat → List (Nat × JsPromise Unit) → Prop
  | [], _, [] => True
  | op :: ops, t, entry :: rest =>
    entry.1 = t ∧ entry.2 = op.run t ∧ ChainRuns ops entry.2.settleTime rest
  | _, _, _ => False

/-- Settlement times along the chain never decrease. -/
def SettleMonotone : Nat → List (Nat × JsPromise Unit) → Prop
  | _, [] => True
  | t, entry :: rest => t ≤ entry.2.settleTime ∧ SettleMonotone entry.2.settleTime rest

/-- The `run` promise of `enqueueLifecycle` is the operation started at the
previous queue promise's settlement time, whichever way that promise
settled. -/
theorem enqueueLifecycle_run (op : LifecycleOp) (q : JsPromise Unit) :
    (enqueueLifecycle op q).1 = op.run q.settleTime := by
  unfold enqueueLifecycle JsPromise.thenBoth
  cases q.result <;> rfl

/-- The updated queue promise settles exactly when the `run` promise does and
is always fulfilled, so a rejected operation never stalls the queue. -/
theorem enqueueLifecycle_queue (op : LifecycleOp) (q : JsPromise Unit) :
    (enqueueLifecycle op q).2 = ⟨(enqueueLifecycle op q).1.settleTime, .ok ()⟩ := by
  unfold enqueueLifecycle JsPromise.thenBoth
  cases q.result <;> cases hop : op.result <;> simp [LifecycleOp.run, hop]

/-- C9: for every sequence of operations submitted through
`enqueueLifecycle`, each operation begins exactly when the previous one's
promise settled (and is invoked whether that promise fulfilled or rejected),
and completion times are monotone in submission order — a thrown or rejected
operation does not prevent any subsequently enqueued operation from
running. -/
theorem c9_lifecycle_queue_sequential (ops : List LifecycleOp) (q0 : JsPromise Unit) :
    ChainRuns ops q0.settleTime (runLifecycle ops q0) ∧
    SettleMonotone q0.settleTime (runLifecycle ops q0) := by
  induction ops generalizing q0 with
  | nil => exact ⟨trivial, trivial⟩
  | cons op rest ih =>
    have hrun : (enqueueLifecycle op q0).1 = op.run q0.settleTime :=
      enqueueLifecycle_run op q0
    have hqueue : (enqueueLifecycle op q0).2 =
        ⟨(enqueueLifecycle op q0).1.settleTime, .ok ()⟩ := enqueueLifecycle_queue op q0
    have hstep : runLifecycle (op :: rest) q0 =
        (q0.settleTime, (enqueueLifecycle op q0).1) ::
          runLifecycle rest (enqueueLifecycle op q0).2 := rfl
    rw [hstep, hqueue, hrun]
    have ihq := ih ⟨(op.run q0.settleTime).settleTime, .ok ()⟩
    constructor
    · exact ⟨rfl, rfl, ihq.1⟩
    · refine ⟨?_, ihq.2⟩
      show q0.settleTime ≤ (op.run q0.settleTime).settleTime
      unfold LifecycleOp.run
      exact Nat.le_add_right _ _

/-! ## Wire protocol and ownership arbiter (§4.4, §6)

`JSON.parse` output is modelled by `JsonValue` (JSON has no `NaN` or
infinity literals, so every number is a finite double, modelled as `Rat`;
object keys are unique after parsing).  Connections are modelled by their
client ids: every new connection is a fresh socket object, so the source's
`activeClient !== client` object comparisons appear as id inequality, with
freshness supplied as a hypothesis where needed.  `readyState === OPEN` is
membership in `openClients`. -/

/-- A parsed JSON value. -/
inductive JsonValue where
  | str (s : String)
  | num (q : Rat)
  | boolVal (b : Bool)
  | nullVal
  | arr (elems : List JsonValue)
  | obj (fields : List (String × JsonValue))

/-- JavaScript property lookup on a parsed JSON object (keys unique after
`JSON.parse`). -/
def getField (fields : List (String × JsonValue)) (key : String) : Option JsonValue :=
  match fields with
  | [] => none
  | (k, v) :: rest => if k = key then some v else getField rest key

/-- `asFiniteNumber`: a finite number or `undefined`.  All parsed JSON
numbers are finite. -/
def asFiniteNumber : Option JsonValue → Option Rat
  | some (.num q) => some q
  | _ => none

/-- `WebClientToServerMessage`. -/
inductive WebClientToServerMessage where
  | input (data : String)
  | resize (cols rows : Int)
  | ping
deriving DecidableEq, Repr

/-- `WebServerToClientMessage`. -/
inductive WebServerToClientMessage where
  | output (data : String)
  | status (state : String) (reason : Option String)
  | errorMsg (message : String)
  | pong
  | reset
  | ownership (mode : String) (clientId : String) (reason : Option String)
deriving DecidableEq, Repr

/-- Observable connection-level effects: frames sent to a client, a socket
close, and writes/resizes forwarded to the PTY. -/
inductive WsEffect where
  | send (clientId : String) (msg : WebServerToClientMessage)
  | closeClient (clientId : String)
  | ptyWrite (data : String)
  | ptyResize (cols rows : Int)
deriving DecidableEq, Repr

/-- `parseClientMessage(raw)`: `none` input models a `JSON.parse` throw;
non-object values (including arrays, which carry no string `type` property)
are rejected exactly like in the source.  For `resize`, each finite value is
floored and raised to a minimum of `2`. -/
def parseClientMessage : Option JsonValue → Option WebClientToServerMessage
  | none => none
  | some parsed =>
    match parsed with
    | .obj fields =>
      match getField fields "type" with
      | some (.str t) =>
        if t = "input" then
          match getField fields "data" with
          | some (.str d) => some (.input d)
          | _ => none
        else if t = "resize" then
          match asFiniteNumber (getField fields "cols"),
              asFiniteNumber (getField fields "rows") with
          | some cols, some rows =>
            some (.resize (max 2 ⌊cols⌋) (max 2 ⌊rows⌋))
          | _, _ => none
        else if t = "ping" then some .ping
        else none
      | _ => none
    | _ => none

/-- The connection-level mutable state of the broker closure. -/
structure ConnState where
  activeClientId : Option String
  openClients : List String
  hasPty : Bool
  hasActiveSession : Bool
  sessionState : String
  sessionReason : Option String
  outputBuffer : String
  latestClientCols : Int
  latestClientRows : Int
deriving DecidableEq, Repr

/-- `sendWsMessage(client, message)`: dropped when the socket is absent or
not open. -/
def sendWsMessage (s : ConnState) (client : Option String)
    (msg : WebServerToClientMessage) : List WsEffect :=
  match client with
  | none => []
  | some cid => if cid ∈ s.openClients then [.send cid msg] else []

/-- `sendOwnership(client, mode, clientId, reason)`. -/
def sendOwnership (s : ConnState) (client : Option String) (mode : String)
    (clientId : String) (reason : Option String) : List WsEffect :=
  sendWsMessage s client (.ownership mode clientId reason)

/-- The `wss.on("connection")` handler (src lines 2968–2999): detach and
close any existing open controller, promote the new connection to
controller, send it the current status and `ownership: controller`, and
replay the buffer unless the client opted out via `replay=none`. -/
def handleConnection (s : ConnState) (clientId : String) (replayOnConnect : Bool) :
    ConnState × List WsEffect :=
  let s0 : ConnState := { s with openClients := clientId :: s.openClients }
  let takeover : List WsEffect × ConnState :=
    match s0.activeClientId with
    | some prev =>
      -- activeClient && activeClient.readyState === OPEN && activeClient !== client
      if prev ∈ s0.openClients ∧ prev ≠ clientId then
        (sendOwnership s0 (some prev) "detached" prev
            (some "Taken over by another connection.") ++
          sendWsMessage s0 (some prev)
            (.errorMsg "Disconnected: terminal control taken over by another client.") ++
          [.closeClient prev],
          { s0 with openClients := s0.openClients.filter (fun c => c ≠ prev) })
      else ([], s0)
    | none => ([], s0)
  let s1 : ConnState := { takeover.2 with activeClientId := some clientId }
  let eff2 := sendWsMessage s1 (some clientId) (.status s.sessionState s.sessionReason) ++
    sendOwnership s1 (some clientId) "controller" clientId none
  let eff3 := if s1.hasActiveSession ∧ replayOnConnect then
      sendWsMessage s1 (some clientId) .reset ++
      (if s.outputBuffer.length > 0 then
        sendWsMessage s1 (some clientId) (.output s.outputBuffer)
      else [])
    else []
  (s1, takeover.1 ++ eff2 ++ eff3)

/-- The `client.on("message")` handler (src lines 3001–3032): a sender that
is not the current controller gets an `ownership: detached` notice and
nothing is forwarded; otherwise the frame is parsed and dispatched
(`input` → PTY write, `resize` → record viewport and PTY resize, `ping` →
`pong`, malformed → one `error` frame). -/
def handleMessage (s : ConnState) (clientId : String) (parsed : Option JsonValue) :
    ConnState × List WsEffect :=
  if s.activeClientId ≠ some clientId then
    (s, sendOwnership s (some clientId) "detached" clientId
      (some "Another client currently controls this session."))
  else
    match parseClientMessage parsed with
    | none => (s, sendWsMessage s (some clientId) (.errorMsg "Invalid client message payload."))
    | some (.input d) => (s, if s.hasPty then [.ptyWrite d] else [])
    | some (.resize cols rows) =>
      ({ s with latestClientCols := cols, latestClientRows := rows },
       if s.hasPty then [.ptyResize cols rows] else [])
    | some .ping => (s, sendWsMessage s (some clientId) .pong)

/-- C5: when a new authenticated connection `b` arrives while `a` is the
open controller, `a` is first sent `ownership: detached` (takeover reason)
and then closed, `b` becomes the controller and is sent
`ownership: controller`, and any `input` or `resize` frame `a` sends
afterwards is not forwarded to any PTY. -/
theorem c5_ownership_takeover (s : ConnState) (a b : String) (replay : Bool)
    (ha : s.activeClientId = some a) (hopen : a ∈ s.openClients) (hab : a ≠ b) :
    (∃ rest, (handleConnection s b replay).2 =
      .send a (.ownership "detached" a (some "Taken over by another connection.")) ::
      .send a (.errorMsg "Disconnected: terminal control taken over by another client.") ::
      .closeClient a :: rest) ∧
    (handleConnection s b replay).1.activeClientId = some b ∧
    WsEffect.send b (.ownership "controller" b none) ∈ (handleConnection s b replay).2 ∧
    (∀ raw : Option JsonValue, ∀ e ∈ (handleMessage (handleConnection s b replay).1 a raw).2,
      (∀ d, e ≠ .ptyWrite d) ∧ (∀ c r, e ≠ .ptyResize c r)) := by
  have hmem : a ∈ b :: s.openClients := List.mem_cons_of_mem _ hopen
  have hguard : a ∈ (⟨s.activeClientId, b :: s.openClients, s.hasPty, s.hasActiveSession,
      s.sessionState, s.sessionReason, s.outputBuffer, s.latestClientCols,
      s.latestClientRows⟩ : ConnState).openClients ∧ a ≠ b := ⟨hmem, hab⟩
  have hbmem : b ∈ (b :: s.openClients).filter (fun c => c ≠ a) := by
    rw [List.mem_filter]
    exact ⟨List.mem_cons_self _ _, by simp [hab.symm ∘ Eq.symm, Ne.symm hab]⟩
  unfold handleConnection
  rw [ha]
  simp only
  rw [if_pos hguard]
  unfold sendOwnership sendWsMessage
  simp only
  rw [if_pos hmem, if_pos hmem, if_pos hbmem, if_pos hbmem]
  refine ⟨⟨_, rfl⟩, by trivial, ?_, ?_⟩
  · simp
  · intro raw e he
    have hne : (some b : Option String) ≠ some a := by
      intro hc
      exact hab (Option.some_inj.mp hc).symm
    unfold handleMessage at he
    rw [if_pos (by simpa using hne)] at he
    unfold sendOwnership sendWsMessage at he
    simp only at he
    split at he
    · rcases List.mem_singleton.mp he with rfl
      exact ⟨fun d hc => WsEffect.noConfusion hc, fun c r hc => WsEffect.noConfusion hc⟩
    · exact absurd he (List.not_mem_nil e)

/-- Witness for `c5_ownership_takeover` at a concrete two-client state. -/
theorem c5_ownership_takeover_witness :
    (∃ rest, (handleConnection
      ⟨some "a", ["a"], true, true, "running", none, "", 120, 36⟩ "b" false).2 =
      .send "a" (.ownership "detached" "a" (some "Taken over by another connection.")) ::
      .send "a" (.errorMsg "Disconnected: terminal control taken over by another client.") ::
      .closeClient "a" :: rest) ∧
    (handleConnection ⟨some "a", ["a"], true, true, "running", none, "", 120, 36⟩
      "b" false).1.activeClientId = some "b" ∧
    WsEffect.send "b" (.ownership "controller" "b" none) ∈
      (handleConnection ⟨some "a", ["a"], true, true, "running", none, "", 120, 36⟩
        "b" false).2 ∧
    (∀ raw : Option JsonValue, ∀ e ∈ (handleMessage (handleConnection
          ⟨some "a", ["a"], true, true, "running", none, "", 120, 36⟩ "b" false).1
        "a" raw).2,
      (∀ d, e ≠ .ptyWrite d) ∧ (∀ c r, e ≠ .ptyResize c r)) :=
  c5_ownership_takeover ⟨some "a", ["a"], true, true, "running", none, "", 120, 36⟩
    "a" "b" false rfl (by decide) (by decide)

/-- C6 counterexample: in a state where `"b"` is the controller, a `ping`
frame from the open non-controller client `"a"` is answered with an
`ownership: detached` notice and no `pong` at all — the code short-circuits
every frame from a non-controller before the `ping` dispatch. -/
theorem c6_ping_counterexample :
    (handleMessage ⟨some "b", ["a", "b"], true, true, "running", none, "", 120, 36⟩
        "a" (some (.obj [("type", .str "ping")]))).2 =
      [.send "a" (.ownership "detached" "a"
        (some "Another client currently controls this session."))] ∧
    WsEffect.send "a" .pong ∉
      (handleMessage ⟨some "b", ["a", "b"], true, true, "running", none, "", 120, 36⟩
        "a" (some (.obj [("type", .str "ping")]))).2 := by
  constructor
  · rfl
  · intro hmem
    have : WsEffect.send "a" .pong = .send "a" (.ownership "detached" "a"
        (some "Another client currently controls this session.")) := by
      have h := hmem
      rw [show (handleMessage ⟨some "b", ["a", "b"], true, true, "running", none, "", 120, 36⟩
          "a" (some (.obj [("type", .str "ping")]))).2 =
        [.send "a" (.ownership "detached" "a"
          (some "Another client currently controls this session."))] from rfl] at h
      exact List.mem_singleton.mp h
    exact WsEffect.noConfusion this (fun _ hmsg => WebServerToClientMessage.noConfusion hmsg)

/-- C6 (corrected): a `ping` frame from the *current controller* is answered
with `pong`; a `ping` from an open non-controller connection instead
receives an `ownership: detached` notice and no `pong`. -/
theorem c6_ping_pong_amended (s : ConnState) (c : String) (raw : Option JsonValue)
    (hping : parseClientMessage raw = some .ping) (hopen : c ∈ s.openClients) :
    (s.activeClientId = some c → (handleMessage s c raw).2 = [.send c .pong]) ∧
    (s.activeClientId ≠ some c → (handleMessage s c raw).2 =
      [.send c (.ownership "detached" c
        (some "Another client currently controls this session."))]) := by
  constructor
  · intro hactive
    unfold handleMessage
    rw [if_neg (by simp [hactive]), hping]
    simp [sendWsMessage, hopen]
  · intro hactive
    unfold handleMessage
    rw [if_pos hactive]
    simp [sendOwnership, sendWsMessage, hopen]

/-- Witness for `c6_ping_pong_amended` at a concrete controller state. -/
theorem c6_ping_pong_amended_witness :
    ((⟨some "a", ["a"], true, true, "running", none, "", 120, 36⟩ :
        ConnState).activeClientId = some "a" →
      (handleMessage ⟨some "a", ["a"], true, true, "running", none, "", 120, 36⟩
        "a" (some (.obj [("type", .str "ping")]))).2 = [.send "a" .pong]) ∧
    ((⟨some "a", ["a"], true, true, "running", none, "", 120, 36⟩ :
        ConnState).activeClientId ≠ some "a" →
      (handleMessage ⟨some "a", ["a"], true, true, "running", none, "", 120, 36⟩
        "a" (some (.obj [("type", .str "ping")]))).2 =
        [.send "a" (.ownership "detached" "a"
          (some "Another client currently controls this session."))]) :=
  c6_ping_pong_amended ⟨some "a", ["a"], true, true, "running", none, "", 120, 36⟩
    "a" (some (.obj [("type", .str "ping")])) rfl (by decide)

/-- C10: a `resize` frame whose `cols` and `rows` are finite numbers is
accepted (not rejected as malformed) even when fractional or below `2`: the
parser floors each value and raises it to a minimum of `2`, and the message
handler applies exactly those values — integers at least `2` — to the PTY
and records them as the latest viewport. -/
theorem c10_resize_normalization (fields : List (String × JsonValue)) (c r : Rat)
    (s : ConnState) (cid : String)
    (htype : getField fields "type" = some (.str "resize"))
    (hcols : getField fields "cols" = some (.num c))
    (hrows : getField fields "rows" = some (.num r))
    (hactive : s.activeClientId = some cid)
    (hpty : s.hasPty = true) :
    parseClientMessage (some (.obj fields)) = some (.resize (max 2 ⌊c⌋) (max 2 ⌊r⌋)) ∧
    2 ≤ max 2 ⌊c⌋ ∧ 2 ≤ max 2 ⌊r⌋ ∧
    (handleMessage s cid (some (.obj fields))).2 = [.ptyResize (max 2 ⌊c⌋) (max 2 ⌊r⌋)] ∧
    (handleMessage s cid (some (.obj fields))).1.latestClientCols = max 2 ⌊c⌋ ∧
    (handleMessage s cid (some (.obj fields))).1.latestClientRows = max 2 ⌊r⌋ := by
  have hparse : parseClientMessage (some (.obj fields)) =
      some (.resize (max 2 ⌊c⌋) (max 2 ⌊r⌋)) := by
    simp [parseClientMessage, htype, hcols, hrows, asFiniteNumber]
  have hmsg : handleMessage s cid (some (.obj fields)) =
      ({ s with latestClientCols := max 2 ⌊c⌋, latestClientRows := max 2 ⌊r⌋ },
        [.ptyResize (max 2 ⌊c⌋) (max 2 ⌊r⌋)]) := by
    unfold handleMessage
    rw [if_neg (by simp [hactive]), hparse]
    simp [hpty]
  refine ⟨hparse, le_max_left _ _, le_max_left _ _, ?_, ?_, ?_⟩
  · rw [hmsg]
  · rw [hmsg]
  · rw [hmsg]

/-- Witness for `c10_resize_normalization` at a fractional-and-too-small
resize frame `{type:"resize", cols:2.5, rows:1}` from the controller. -/
theorem c10_resize_normalization_witness :
    parseClientMessage (some (.obj [("type", .str "resize"),
        ("cols", .num ((5:Rat)/2)), ("rows", .num (1:Rat))])) =
      some (.resize (max 2 ⌊(5:Rat)/2⌋) (max 2 ⌊(1:Rat)⌋)) ∧
    2 ≤ max 2 ⌊(5:Rat)/2⌋ ∧ 2 ≤ max 2 ⌊(1:Rat)⌋ ∧
    (handleMessage ⟨some "a", ["a"], true, true, "running", none, "", 120, 36⟩
        "a" (some (.obj [("type", .str "resize"),
          ("cols", .num ((5:Rat)/2)), ("rows", .num (1:Rat))]))).2 =
      [.ptyResize (max 2 ⌊(5:Rat)/2⌋) (max 2 ⌊(1:Rat)⌋)] ∧
    (handleMessage ⟨some "a", ["a"], true, true, "running", none, "", 120, 36⟩
        "a" (some (.obj [("type", .str "resize"),
          ("cols", .num ((5:Rat)/2)), ("rows", .num (1:Rat))]))).1.latestClientCols =
      max 2 ⌊(5:Rat)/2⌋ ∧
    (handleMessage ⟨some "a", ["a"], true, true, "running", none, "", 120, 36⟩
        "a" (some (.obj [("type", .str "resize"),
          ("cols", .num ((5:Rat)/2)), ("rows", .num (1:Rat))]))).1.latestClientRows =
      max 2 ⌊(1:Rat)⌋ :=
  c10_resize_normalization
    [("type", .str "resize"), ("cols", .num ((5:Rat)/2)), ("rows", .num (1:Rat))]
    ((5:Rat)/2) (1:Rat)
    ⟨some "a", ["a"], true, true, "running", none, "", 120, 36⟩ "a"
    rfl rfl rfl rfl rfl

/-! ## Session registry and lifecycle operations (§4.1)

`runningSessions` is a `Map<string, WebRunningSession>` keyed by session id;
it is modelled as a list in insertion order (`Map` iteration order), with
id-uniqueness supplied as a `Nodup` hypothesis where a proof needs it.
The impure ingredients of `startPtySession` are explicit arguments: the
generated session id (`randomBytes(12)`, fresh by hypothesis), the spawned
PTY handle identity and journal generation (`newGen`), the wall clock
(`now`), and whether `nodePty.spawn` throws (`spawnFails`). -/

/-- `WebActiveSession` (the `session` record stored in the registry and
shared by reference with `activeSession`). -/
structure WebActiveSession where
  id : String
  projectId : Option String
  cwd : String
  provider : Option String
  model : Option String
  sessionPath : Option String
  noSession : Bool
  startedAt : String
  outputChars : Nat
  outputTruncated : Bool
  attachOwnerClientId : Option String
  journalBytes : Nat
  journalTruncated : Bool
  journalGeneration : Nat
deriving DecidableEq, Repr

/-- `WebRunningSession` (`pty` object identity is `ptyGen`). -/
structure WebRunningSession where
  session : WebActiveSession
  launch : WebLaunchConfig
  ptyGen : Nat
  outputBuffer : List Char
  outputTruncated : Bool
  journalPath : String
  journalGeneration : Nat
  journalBytes : Nat
  journalTruncated : Bool
deriving DecidableEq, Repr

/-- `WebRecentSession` (durable recent-session record). -/
structure WebRecentSession where
  id : String
  projectId : Option String
  cwd : String
  provider : Option String
  model : Option String
  sessionPath : Option String
  noSession : Bool
  startedAt : String
  endedAt : Option String
  state : String
deriving DecidableEq, Repr

/-- The broker closure's mutable session-level state. -/
structure BrokerState where
  runningSessions : List WebRunningSession
  activeSessionId : Option String
  activePtyGen : Option Nat
  recentSessions : List WebRecentSession
  outputBuffer : List Char
  latestClientCols : Int
  latestClientRows : Int
  sessionState : String
  sessionReason : Option String
  activeClientId : Option String
  activeLaunchForRestart : WebLaunchConfig
  launchDefaults : WebLaunchDefaults
deriving DecidableEq, Repr

/-- Observable broker effects: status broadcast (`updateState`), buffer
replay frames, and PTY process actions. -/
inductive BrokerEffect where
  | sendStatus (state : String) (reason : Option String)
  | sendReset
  | sendOutput (data : List Char)
  | spawnPty (gen : Nat)
  | killPty (gen : Nat)
  | resizePty (gen : Nat) (cols rows : Int)
deriving DecidableEq, Repr

/-- The ids of the registered running sessions, in registry order. -/
def sessionIds (s : BrokerState) : List String :=
  s.runningSessions.map (fun r => r.session.id)

/-- `launchSignature(launch)`: the source builds a JSON string with this
fixed key order, an injective encoding of the tuple below. -/
def launchSignature (launch : WebLaunchConfig) :
    String × String × String × String × String × Bool :=
  (launch.projectId.getD "", launch.cwd, launch.provider.getD "", launch.model.getD "",
   launch.sessionPath.getD "",
   if jsTruthyStr launch.sessionPath then false else launch.noSession)

/-- `runningSessions.get(sessionId)`. -/
def findRunningSessionById (s : BrokerState) (sessionId : String) :
    Option WebRunningSession :=
  s.runningSessions.find? (fun r => decide (r.session.id = sessionId))

/-- `findRunningSessionByLaunch(launch)`: first registered session with the
same launch signature. -/
def findRunningSessionByLaunch (s : BrokerState) (launch : WebLaunchConfig) :
    Option WebRunningSession :=
  s.runningSessions.find? (fun r => decide (launchSignature r.launch = launchSignature launch))

/-- `findRunningSessionBySessionPath(sessionPath)`: first registered session
with a truthy `session.sessionPath` equal to the requested path. -/
def findRunningSessionBySessionPath (s : BrokerState) (sessionPath : String) :
    Option WebRunningSession :=
  s.runningSessions.find?
    (fun r => jsTruthyStr r.session.sessionPath &&
      decide (r.session.sessionPath = some sessionPath))

/-- `updateState(state, reason)`: record the state and broadcast a `status`
message to the active client. -/
def updateState (s : BrokerState) (state : String) (reason : Option String) :
    BrokerState × List BrokerEffect :=
  ({ s with sessionState := state, sessionReason := reason }, [.sendStatus state reason])

/-- `markRecentSessionState(sessionId, state)`: mutate the first matching
recent-session record (`find` + in-place update) and stamp `endedAt`. -/
def markRecentSessionState :
    List WebRecentSession → String → String → String → List WebRecentSession
  | [], _, _, _ => []
  | entry :: rest, sessionId, state, now =>
    if entry.id = sessionId then { entry with state := state, endedAt := some now } :: rest
    else entry :: markRecentSessionState rest sessionId state now

/-- `upsertRecentSessionRunning(sessionInfo)`: splice out any existing entry
with the same id, unshift the fresh `running` entry, trim to
`MAX_RECENT_SESSIONS`. -/
def upsertRecentSessionRunning (recent : List WebRecentSession)
    (sessionInfo : WebActiveSession) : List WebRecentSession :=
  let nextEntry : WebRecentSession := {
    id := sessionInfo.id, projectId := sessionInfo.projectId, cwd := sessionInfo.cwd,
    provider := sessionInfo.provider, model := sessionInfo.model,
    sessionPath := sessionInfo.sessionPath, noSession := sessionInfo.noSession,
    startedAt := sessionInfo.startedAt, endedAt := none, state := "running" }
  (nextEntry :: recent.eraseP (fun entry => decide (entry.id = sessionInfo.id))).take
    MAX_RECENT_SESSIONS

/-- `activateRunningSession(running, params)` (src lines 2146–2179): point
the broker at this session, refresh the snapshot fields of its `session`
record in the registry, resize its PTY to the latest viewport, optionally
replay the buffer, and broadcast `running`.  Returns the new state, the
effects, and the refreshed registry record. -/
def activateRunningSession (s : BrokerState) (running : WebRunningSession)
    (resetBuffer : Bool) (reason : Option String) :
    BrokerState × List BrokerEffect × WebRunningSession :=
  let updated : WebRunningSession := { running with
    session := { running.session with
      outputChars := running.outputBuffer.length,
      outputTruncated := running.outputTruncated,
      attachOwnerClientId := s.activeClientId,
      journalBytes := running.journalBytes,
      journalTruncated := running.journalTruncated,
      journalGeneration := running.journalGeneration } }
  let s1 : BrokerState := { s with
    runningSessions := s.runningSessions.map
      (fun r => if r.session.id = running.session.id then updated else r),
    activeSessionId := some running.session.id,
    activePtyGen := some running.ptyGen,
    activeLaunchForRestart := running.launch,
    launchDefaults := { provider := running.launch.provider, model := running.launch.model,
                        sessionPath := running.launch.sessionPath,
                        noSession := running.launch.noSession },
    outputBuffer := running.outputBuffer }
  let effResize := [BrokerEffect.resizePty running.ptyGen s.latestClientCols s.latestClientRows]
  let effReset := if resetBuffer then
      BrokerEffect.sendReset ::
        (if running.outputBuffer.length > 0 then [BrokerEffect.sendOutput running.outputBuffer]
         else [])
    else []
  let su := updateState s1 "running" reason
  (su.1, effResize ++ effReset ++ su.2, updated)

/-- `stopSessionById(sessionId, reason, state)` (src lines 2181–2205). -/
def stopSessionById (s : BrokerState) (sessionId : String) (reason : String)
    (state : String) (now : String) : BrokerState × List BrokerEffect × Bool :=
  match findRunningSessionById s sessionId with
  | none => (s, [], false)
  | some running =>
    let s1 : BrokerState := { s with
      runningSessions := s.runningSessions.eraseP
        (fun r => decide (r.session.id = sessionId)) }
    let s2 : BrokerState := { s1 with
      recentSessions := markRecentSessionState s1.recentSessions sessionId state now }
    if s2.activeSessionId = some sessionId then
      let s3 : BrokerState := { s2 with
        activeSessionId := none, activePtyGen := none, outputBuffer := [] }
      let su := updateState s3 "stopped" (some reason)
      (su.1, BrokerEffect.killPty running.ptyGen :: su.2, true)
    else (s2, [BrokerEffect.killPty running.ptyGen], true)

/-- `stopActiveSession(reason, state)` (src lines 2207–2224). -/
def stopActiveSession (s : BrokerState) (reason : String) (state : String) (now : String) :
    BrokerState × List BrokerEffect × Bool :=
  match s.activeSessionId with
  | none =>
    let su := updateState s "stopped" (some reason)
    (su.1, su.2, false)
  | some sessionId =>
    let r := stopSessionById s sessionId reason state now
    if r.2.2 then (r.1, r.2.1, true)
    else
      let s2 : BrokerState := { r.1 with
        activeSessionId := none, activePtyGen := none, outputBuffer := [] }
      let su := updateState s2 "stopped" (some reason)
      (su.1, r.2.1 ++ su.2, false)

/-- `startPtySession` parameters. -/
structure StartParams where
  resetBuffer : Bool := false
  forceNew : Bool := false
  replaceActive : Bool := false
  sessionId : Option String := none
deriving DecidableEq, Repr

/-- The launch normalization at the top of `startPtySession`:
`sessionPath: normalizeSessionPath(launch.sessionPath)`,
`noSession: launch.sessionPath ? false : launch.noSession`. -/
def normalizedLaunchOf (resolvePath : String → String) (launch : WebLaunchConfig) :
    WebLaunchConfig :=
  { launch with
    sessionPath := normalizeSessionPath resolvePath launch.sessionPath,
    noSession := if jsTruthyStr launch.sessionPath then false else launch.noSession }

/-- The reuse lookup of `startPtySession` (src lines 2248–2253):
```
(params?.sessionId ? runningSessions.get(params.sessionId) : undefined) ??
  (normalizedLaunch.sessionPath
    ? findRunningSessionBySessionPath(normalizedLaunch.sessionPath)
    : findRunningSessionByLaunch(normalizedLaunch));
```
performed only when `forceNew !== true`. -/
def reuseLookup (resolvePath : String → String) (s : BrokerState) (launch : WebLaunchConfig)
    (params : StartParams) : Option WebRunningSession :=
  if params.forceNew then none
  else
    (if jsTruthyStr params.sessionId then
        findRunningSessionById s (params.sessionId.getD "")
      else none).or
    (if jsTruthyStr (normalizedLaunchOf resolvePath launch).sessionPath then
        findRunningSessionBySessionPath s
          ((normalizedLaunchOf resolvePath launch).sessionPath.getD "")
      else findRunningSessionByLaunch s (normalizedLaunchOf resolvePath launch))

/-- The fresh `sessionInfo` record built in `startPtySession` after a
successful spawn (id from `randomBytes`, journal generation from
`Date.now()`, both modelled by `newId`/`newGen`). -/
def createdSessionInfo (resolvePath : String → String) (launch : WebLaunchConfig)
    (newId : String) (newGen : Nat) (now : String) (attachOwner : Option String) :
    WebActiveSession :=
  { id := newId, projectId := (normalizedLaunchOf resolvePath launch).projectId,
    cwd := (normalizedLaunchOf resolvePath launch).cwd,
    provider := (normalizedLaunchOf resolvePath launch).provider,
    model := (normalizedLaunchOf resolvePath launch).model,
    sessionPath := (normalizedLaunchOf resolvePath launch).sessionPath,
    noSession := (normalizedLaunchOf resolvePath launch).noSession,
    startedAt := now, outputChars := 0, outputTruncated := false,
    attachOwnerClientId := attachOwner,
    journalBytes := 0, journalTruncated := false, journalGeneration := newGen }

/-- The fresh `WebRunningSession` registry entry built in `startPtySession`. -/
def createdRunning (resolvePath : String → String) (launch : WebLaunchConfig)
    (newId : String) (newGen : Nat) (now : String) (attachOwner : Option String) :
    WebRunningSession :=
  { session := createdSessionInfo resolvePath launch newId newGen now attachOwner,
    launch := normalizedLaunchOf resolvePath launch, ptyGen := newGen,
    outputBuffer := [], outputTruncated := false,
    journalPath := newId ++ ".log", journalGeneration := newGen,
    journalBytes := 0, journalTruncated := false }

/-- The broker state after the creation branch of `startPtySession` has
broadcast `starting` and registered the fresh entry, just before
activation. -/
def startingState (resolvePath : String → String) (s : BrokerState)
    (launch : WebLaunchConfig) (newId : String) (newGen : Nat) (now : String) :
    BrokerState :=
  { s with
    sessionState := "starting",
    sessionReason := some ("Starting in " ++ (normalizedLaunchOf resolvePath launch).cwd),
    runningSessions := s.runningSessions ++
      [createdRunning resolvePath launch newId newGen now s.activeClientId] }

/-- `startPtySession(launch, params)` (src lines 2238–2368).  The returned
`Except` models thrown errors; effects record the PTY spawn.  The `onData`
and `onExit` registrations are the separate handlers `onDataChunk` and
`spawnedOnExit`. -/
def startPtySession (resolvePath : String → String) (s : BrokerState)
    (launch : WebLaunchConfig) (params : StartParams) (spawnFails : Bool)
    (newId : String) (newGen : Nat) (now : String) :
    Except String WebActiveSession × BrokerState × List BrokerEffect :=
  let normalizedLaunch := normalizedLaunchOf resolvePath launch
  match reuseLookup resolvePath s launch params with
  | some running =>
    let act := activateRunningSession s running params.resetBuffer none
    let s2 : BrokerState := { act.1 with
      recentSessions := upsertRecentSessionRunning act.1.recentSessions act.2.2.session }
    (.ok act.2.2.session, s2, act.2.1)
  | none =>
    let stopStep : BrokerState × List BrokerEffect :=
      if params.forceNew ∧ params.replaceActive ∧ s.activeSessionId.isSome then
        let r := stopActiveSession s "Restarting session" "stopped" now
        (r.1, r.2.1)
      else (s, [])
    let su1 := updateState stopStep.1 "starting" (some ("Starting in " ++ normalizedLaunch.cwd))
    if spawnFails then
      let su2 := updateState su1.1 "stopped" (some "Failed to spawn PTY child process.")
      (.error "Failed to spawn PTY child process.", su2.1, stopStep.2 ++ su1.2 ++ su2.2)
    else
      let running := createdRunning resolvePath launch newId newGen now su1.1.activeClientId
      let sB : BrokerState := { su1.1 with
        runningSessions := su1.1.runningSessions ++ [running] }
      let act := activateRunningSession sB running params.resetBuffer none
      let sC : BrokerState := { act.1 with
        recentSessions := upsertRecentSessionRunning act.1.recentSessions act.2.2.session }
      (.ok act.2.2.session, sC,
        stopStep.2 ++ su1.2 ++ [BrokerEffect.spawnPty newGen] ++ act.2.1)

/-- A child exit event (`{ exitCode, signal }`; node-pty reports `signal`
as `0`/absent when the child exited normally). -/
structure ExitEvent where
  exitCode : Int
  signal : Option Int
deriving DecidableEq, Repr

/-- The broadcast reason string built in `spawned.onExit`:
`` `CLI exited (code ${event.exitCode}${event.signal ? `, signal ${event.signal}` : ""})` ``. -/
def exitReason (e : ExitEvent) : String :=
  "CLI exited (code " ++ toString e.exitCode ++
    (if jsTruthyNum e.signal then ", signal " ++ toString (e.signal.getD 0) else "") ++ ")"

/-- The recorded terminal state chosen in `spawned.onExit`:
`event.exitCode === 0 ? "stopped" : "error"`. -/
def exitNextState (e : ExitEvent) : String :=
  if e.exitCode = 0 then "stopped" else "error"

/-- The `spawned.onExit` handler (src lines 2351–2366): ignore stale
handles, drop the session from the registry, mark the recent-session record
with `exitNextState`, and — when this session is the active one — clear the
active references and broadcast `status: stopped` with the exit reason. -/
def spawnedOnExit (s : BrokerState) (sessionId : String) (ptyGen : Nat) (e : ExitEvent)
    (now : String) : BrokerState × List BrokerEffect :=
  match findRunningSessionById s sessionId with
  | none => (s, [])
  | some current =>
    if current.ptyGen ≠ ptyGen then (s, [])
    else
      let s1 : BrokerState := { s with
        runningSessions := s.runningSessions.eraseP
          (fun r => decide (r.session.id = sessionId)) }
      let s2 : BrokerState := { s1 with
        recentSessions := markRecentSessionState s1.recentSessions sessionId
          (exitNextState e) now }
      if s2.activeSessionId = some sessionId then
        let s3 : BrokerState := { s2 with
          activeSessionId := none, activePtyGen := none, outputBuffer := [] }
        let su := updateState s3 "stopped" (some (exitReason e))
        (su.1, su.2)
      else (s2, [])

/-- `markRecentSessionState` really records the state: if some entry with
the session id exists, the updated list contains an entry with that id, the
new state, and the `endedAt` stamp. -/
theorem markRecentSessionState_mem (l : List WebRecentSession) (sid st now : String)
    (h : ∃ en ∈ l, en.id = sid) :
    ∃ en2 ∈ markRecentSessionState l sid st now,
      en2.id = sid ∧ en2.state = st ∧ en2.endedAt = some now := by
  induction l with
  | nil =>
    rcases h with ⟨en, hmem, _⟩
    cases hmem
  | cons a rest ih =>
    by_cases ha : a.id = sid
    · refine ⟨{ a with state := st, endedAt := some now }, ?_, ha, rfl, rfl⟩
      unfold markRecentSessionState
      rw [if_pos ha]
      exact List.mem_cons_self _ _
    · rcases h with ⟨en, hmem, hid⟩
      rcases List.mem_cons.mp hmem with rfl | hmem2
      · exact absurd hid ha
      · obtain ⟨en2, hm2, h2⟩ := ih ⟨en, hmem2, hid⟩
        refine ⟨en2, ?_, h2⟩
        unfold markRecentSessionState
        rw [if_neg ha]
        exact List.mem_cons_of_mem _ hm2

/-- Removing a session id by `eraseP` removes it completely when the
registry ids are unique (`Map` semantics). -/
theorem eraseP_session_id (l : List WebRunningSession) (sid : String)
    (hnodup : (l.map (fun r => r.session.id)).Nodup) :
    ∀ r ∈ l.eraseP (fun r => decide (r.session.id = sid)), r.session.id ≠ sid := by
  induction l with
  | nil =>
    intro r hr
    simp [List.eraseP] at hr
  | cons a rest ih =>
    intro r hr hid
    by_cases ha : a.session.id = sid
    · rw [List.eraseP_cons_of_pos (by simpa using ha)] at hr
      have : a.session.id ∈ rest.map (fun r => r.session.id) := by
        rw [ha, ← hid]
        exact List.mem_map_of_mem _ hr
      exact (List.nodup_cons.mp hnodup).1 this
    · rw [List.eraseP_cons_of_neg (by simpa using ha)] at hr
      rcases List.mem_cons.mp hr with rfl | hr2
      · exact ha hid
      · exact ih (List.nodup_cons.mp hnodup).2 r hr2 hid

/-- C8 counterexample: a child exit event with `exitCode = 0` and
`signal = 15` (delivered for the registered PTY of the active session) is
recorded as `stopped`, not `error` — the code only inspects
`event.exitCode === 0` and ignores the signal when choosing the recorded
terminal state. -/
theorem c8_exit_state_counterexample :
    (((spawnedOnExit
        ⟨[⟨⟨"x", none, "/repo", none, none, none, false, "t0", 0, false, none, 0, false, 1⟩,
            ⟨"/repo", none, none, none, none, false⟩, 1, [], false, "x.log", 1, 0, false⟩],
          some "x", some 1,
          [⟨"x", none, "/repo", none, none, none, false, "t0", none, "running"⟩],
          [], 120, 36, "running", none, none,
          ⟨"/repo", none, none, none, none, false⟩, ⟨none, none, none, false⟩⟩
        "x" 1 ⟨0, some 15⟩ "t1").1.recentSessions.find?
          (fun en => decide (en.id = "x"))).map (fun en => en.state)) = some "stopped" ∧
    ("stopped" : String) ≠ "error" := by
  decide

/-- C8 (corrected): for an exit event delivered for the currently registered
PTY of the active session, the recorded terminal state is `stopped` exactly
when `exitCode = 0` and `error` otherwise — the signal plays no role in the
recorded state — while the broadcast is a `status` with state `stopped`
whose reason string embeds the exit code and, when a signal is present, the
signal; the session is removed from the registry. -/
theorem c8_exit_recording_amended (s : BrokerState) (sessionId : String) (gen : Nat)
    (e : ExitEvent) (now : String) (current : WebRunningSession) (entry : WebRecentSession)
    (hfind : findRunningSessionById s sessionId = some current)
    (hgen : current.ptyGen = gen)
    (hactive : s.activeSessionId = some sessionId)
    (hnodup : (s.runningSessions.map (fun r => r.session.id)).Nodup)
    (hentry : entry ∈ s.recentSessions) (hentryid : entry.id = sessionId) :
    (∃ en ∈ (spawnedOnExit s sessionId gen e now).1.recentSessions,
      en.id = sessionId ∧ en.state = exitNextState e ∧ en.endedAt = some now) ∧
    exitNextState e = (if e.exitCode = 0 then "stopped" else "error") ∧
    (spawnedOnExit s sessionId gen e now).2 =
      [.sendStatus "stopped" (some (exitReason e))] ∧
    (∀ r ∈ (spawnedOnExit s sessionId gen e now).1.runningSessions,
      r.session.id ≠ sessionId) ∧
    (∃ pre post, exitReason e = pre ++ toString e.exitCode ++ post) ∧
    (jsTruthyNum e.signal = true →
      ∃ pre post, exitReason e = pre ++ toString (e.signal.getD 0) ++ post) := by
  have hstep : spawnedOnExit s sessionId gen e now =
      ({ s with
          runningSessions := s.runningSessions.eraseP
            (fun r => decide (r.session.id = sessionId)),
          recentSessions := markRecentSessionState s.recentSessions sessionId
            (exitNextState e) now,
          activeSessionId := none, activePtyGen := none, outputBuffer := [],
          sessionState := "stopped", sessionReason := some (exitReason e) },
        [.sendStatus "stopped" (some (exitReason e))]) := by
    simp [spawnedOnExit, hfind, hgen, hactive, updateState]
  rw [hstep]
  refine ⟨?_, rfl, rfl, ?_, ?_, ?_⟩
  · exact markRecentSessionState_mem s.recentSessions sessionId (exitNextState e) now
      ⟨entry, hentry, hentryid⟩
  · exact eraseP_session_id s.runningSessions sessionId hnodup
  · refine ⟨"CLI exited (code ",
      (if jsTruthyNum e.signal then ", signal " ++ toString (e.signal.getD 0) else "") ++ ")",
      ?_⟩
    unfold exitReason
    rw [String.append_assoc, String.append_assoc]
  · intro htru
    refine ⟨"CLI exited (code " ++ toString e.exitCode ++ ", signal ", ")", ?_⟩
    unfold exitReason
    rw [if_pos htru]
    simp [String.append_assoc]

/-- Witness for `c8_exit_recording_amended` at a non-zero exit with a
signal. -/
theorem c8_exit_recording_amended_witness :
    (∃ en ∈ (spawnedOnExit
        ⟨[⟨⟨"x", none, "/repo", none, none, none, false, "t0", 0, false, none, 0, false, 1⟩,
            ⟨"/repo", none, none, none, none, false⟩, 1, [], false, "x.log", 1, 0, false⟩],
          some "x", some 1,
          [⟨"x", none, "/repo", none, none, none, false, "t0", none, "running"⟩],
          [], 120, 36, "running", none, none,
          ⟨"/repo", none, none, none, none, false⟩, ⟨none, none, none, false⟩⟩
        "x" 1 ⟨1, some 9⟩ "t1").1.recentSessions,
      en.id = "x" ∧ en.state = exitNextState ⟨1, some 9⟩ ∧ en.endedAt = some "t1") ∧
    exitNextState ⟨1, some 9⟩ = (if (1:Int) = 0 then "stopped" else "error") ∧
    (spawnedOnExit
        ⟨[⟨⟨"x", none, "/repo", none, none, none, false, "t0", 0, false, none, 0, false, 1⟩,
            ⟨"/repo", none, none, none, none, false⟩, 1, [], false, "x.log", 1, 0, false⟩],
          some "x", some 1,
          [⟨"x", none, "/repo", none, none, none, false, "t0", none, "running"⟩],
          [], 120, 36, "running", none, none,
          ⟨"/repo", none, none, none, none, false⟩, ⟨none, none, none, false⟩⟩
        "x" 1 ⟨1, some 9⟩ "t1").2 =
      [.sendStatus "stopped" (some (exitReason ⟨1, some 9⟩))] ∧
    (∀ r ∈ (spawnedOnExit
        ⟨[⟨⟨"x", none, "/repo", none, none, none, false, "t0", 0, false, none, 0, false, 1⟩,
            ⟨"/repo", none, none, none, none, false⟩, 1, [], false, "x.log", 1, 0, false⟩],
          some "x", some 1,
          [⟨"x", none, "/repo", none, none, none, false, "t0", none, "running"⟩],
          [], 120, 36, "running", none, none,
          ⟨"/repo", none, none, none, none, false⟩, ⟨none, none, none, false⟩⟩
        "x" 1 ⟨1, some 9⟩ "t1").1.runningSessions,
      r.session.id ≠ "x") ∧
    (∃ pre post, exitReason ⟨1, some 9⟩ = pre ++ toString (1:Int) ++ post) ∧
    (jsTruthyNum (⟨1, some 9⟩ : ExitEvent).signal = true →
      ∃ pre post, exitReason ⟨1, some 9⟩ =
        pre ++ toString ((⟨1, some 9⟩ : ExitEvent).signal.getD 0) ++ post) :=
  c8_exit_recording_amended
    ⟨[⟨⟨"x", none, "/repo", none, none, none, false, "t0", 0, false, none, 0, false, 1⟩,
        ⟨"/repo", none, none, none, none, false⟩, 1, [], false, "x.log", 1, 0, false⟩],
      some "x", some 1,
      [⟨"x", none, "/repo", none, none, none, false, "t0", none, "running"⟩],
      [], 120, 36, "running", none, none,
      ⟨"/repo", none, none, none, none, false⟩, ⟨none, none, none, false⟩⟩
    "x" 1 ⟨1, some 9⟩ "t1"
    ⟨⟨"x", none, "/repo", none, none, none, false, "t0", 0, false, none, 0, false, 1⟩,
      ⟨"/repo", none, none, none, none, false⟩, 1, [], false, "x.log", 1, 0, false⟩
    ⟨"x", none, "/repo", none, none, none, false, "t0", none, "running"⟩
    (by decide) rfl rfl (by decide) (by decide) rfl

/-- `find?` commutes with an update map that preserves the predicate. -/
theorem find?_map_pred_eq {α : Type} (l : List α) (u : α → α) (p : α → Bool)
    (h : ∀ x ∈ l, p (u x) = p x) :
    (l.map u).find? p = (l.find? p).map u := by
  induction l with
  | nil => rfl
  | cons a rest ih =>
    have hu : p (u a) = p a := h a (List.mem_cons_self _ _)
    cases hpa : p a with
    | true =>
      rw [List.map_cons, List.find?_cons_of_pos _ (by rw [hu, hpa]),
        List.find?_cons_of_pos _ hpa]
      rfl
    | false =>
      rw [List.map_cons, List.find?_cons_of_neg _ (by simp [hu, hpa]),
        List.find?_cons_of_neg _ (by simp [hpa])]
      exact ih (fun x hx => h x (List.mem_cons_of_mem _ hx))

/-- An id-keyed in-place update leaves a registry without that id
unchanged. -/
theorem map_update_untouched (l : List WebRunningSession) (k : String)
    (v : WebRunningSession) (hfresh : ∀ x ∈ l, x.session.id ≠ k) :
    l.map (fun r => if r.session.id = k then v else r) = l := by
  induction l with
  | nil => rfl
  | cons a rest ih =>
    rw [List.map_cons, if_neg (hfresh a (List.mem_cons_self _ _)),
      ih (fun x hx => hfresh x (List.mem_cons_of_mem _ hx))]

/-- `find?` over an append. -/
theorem find?_append_or {α : Type} (l1 l2 : List α) (p : α → Bool) :
    (l1 ++ l2).find? p = (l1.find? p).or (l2.find? p) := by
  induction l1 with
  | nil => rfl
  | cons a rest ih =>
    cases hpa : p a with
    | true =>
      rw [List.cons_append, List.find?_cons_of_pos _ hpa, List.find?_cons_of_pos _ hpa]
      rfl
    | false =>
      rw [List.cons_append, List.find?_cons_of_neg _ (by simp [hpa]),
        List.find?_cons_of_neg _ (by simp [hpa]), ih]

/-- `activateRunningSession` spawns nothing. -/
theorem activateRunningSession_no_spawn (s : BrokerState) (r : WebRunningSession)
    (rb : Bool) (reason : Option String) :
    ∀ g, BrokerEffect.spawnPty g ∉ (activateRunningSession s r rb reason).2.1 := by
  intro g hg
  unfold activateRunningSession updateState at hg
  simp only at hg
  rw [List.mem_append, List.mem_append] at hg
  rcases hg with (hg | hg) | hg
  · simp at hg
  · by_cases hrb : rb = true
    · rw [if_pos hrb] at hg
      rcases List.mem_cons.mp hg with hc | hg2
      · exact BrokerEffect.noConfusion hc
      · by_cases hlen : r.outputBuffer.length > 0
        · rw [if_pos hlen] at hg2
          simp at hg2
        · rw [if_neg hlen] at hg2
          simp at hg2
    · rw [if_neg hrb] at hg
      simp at hg
  · simp at hg

/-- `activateRunningSession` preserves the registered session ids. -/
theorem sessionIds_activate (s : BrokerState) (r : WebRunningSession)
    (rb : Bool) (reason : Option String) :
    sessionIds (activateRunningSession s r rb reason).1 = sessionIds s := by
  unfold sessionIds activateRunningSession updateState
  simp only
  rw [List.map_map]
  apply List.map_congr_left
  intro x _
  by_cases hx : x.session.id = r.session.id
  · simp only [Function.comp_apply, if_pos hx]
    exact hx.symm ▸ rfl
  · simp only [Function.comp_apply, if_neg hx]

/-- The reuse branch of `startPtySession`: when the lookup finds a running
session, its id is returned, nothing is spawned, and the set of registered
ids is unchanged. -/
theorem startPtySession_reuse (resolvePath : String → String) (s : BrokerState)
    (launch : WebLaunchConfig) (params : StartParams) (spawnFails : Bool)
    (newId : String) (newGen : Nat) (now : String) (running : WebRunningSession)
    (hlookup : reuseLookup resolvePath s launch params = some running) :
    (∃ sess, (startPtySession resolvePath s launch params spawnFails newId newGen now).1 =
        .ok sess ∧ sess.id = running.session.id) ∧
    (∀ g, BrokerEffect.spawnPty g ∉
      (startPtySession resolvePath s launch params spawnFails newId newGen now).2.2) ∧
    sessionIds (startPtySession resolvePath s launch params spawnFails newId newGen now).2.1 =
      sessionIds s := by
  have hstep : startPtySession resolvePath s launch params spawnFails newId newGen now =
      (.ok (activateRunningSession s running params.resetBuffer none).2.2.session,
       { (activateRunningSession s running params.resetBuffer none).1 with
          recentSessions := upsertRecentSessionRunning
            (activateRunningSession s running params.resetBuffer none).1.recentSessions
            (activateRunningSession s running params.resetBuffer none).2.2.session },
       (activateRunningSession s running params.resetBuffer none).2.1) := by
    unfold startPtySession
    rw [hlookup]
  rw [hstep]
  refine ⟨⟨_, rfl, rfl⟩, ?_, ?_⟩
  · exact fun g => activateRunningSession_no_spawn s running params.resetBuffer none g
  · show sessionIds { (activateRunningSession s running params.resetBuffer none).1 with
        recentSessions := _ } = sessionIds s
    have : sessionIds { (activateRunningSession s running params.resetBuffer none).1 with
        recentSessions := upsertRecentSessionRunning
          (activateRunningSession s running params.resetBuffer none).1.recentSessions
          (activateRunningSession s running params.resetBuffer none).2.2.session } =
        sessionIds (activateRunningSession s running params.resetBuffer none).1 := rfl
    rw [this, sessionIds_activate]

/-- The creation branch of `startPtySession`: when the reuse lookup fails
and the restart-teardown guard does not fire, a new PTY is spawned, the
fresh id is returned, and the new registry is the old one with the created
entry appended. -/
theorem startPtySession_create (resolvePath : String → String) (s : BrokerState)
    (launch : WebLaunchConfig) (params : StartParams)
    (newId : String) (newGen : Nat) (now : String)
    (hlookup : reuseLookup resolvePath s launch params = none)
    (hnostop : ¬(params.forceNew = true ∧ params.replaceActive = true ∧
      s.activeSessionId.isSome = true))
    (hfresh : newId ∉ sessionIds s) :
    (∃ sess, (startPtySession resolvePath s launch params false newId newGen now).1 =
        .ok sess ∧ sess.id = newId) ∧
    BrokerEffect.spawnPty newGen ∈
      (startPtySession resolvePath s launch params false newId newGen now).2.2 ∧
    (∃ newRun,
      (startPtySession resolvePath s launch params false newId newGen now).2.1.runningSessions =
        s.runningSessions ++ [newRun] ∧
      newRun.session.id = newId ∧
      newRun.launch = normalizedLaunchOf resolvePath launch ∧
      newRun.session.sessionPath = (normalizedLaunchOf resolvePath launch).sessionPath) ∧
    sessionIds (startPtySession resolvePath s launch params false newId newGen now).2.1 =
      sessionIds s ++ [newId] := by
  have hne : ∀ x ∈ s.runningSessions, x.session.id ≠ newId := by
    intro x hx hc
    exact hfresh (hc ▸ List.mem_map_of_mem _ hx)
  have hstep : startPtySession resolvePath s launch params false newId newGen now =
      (.ok (activateRunningSession (startingState resolvePath s launch newId newGen now)
          (createdRunning resolvePath launch newId newGen now s.activeClientId)
          params.resetBuffer none).2.2.session,
       { (activateRunningSession (startingState resolvePath s launch newId newGen now)
            (createdRunning resolvePath launch newId newGen now s.activeClientId)
            params.resetBuffer none).1 with
          recentSessions := upsertRecentSessionRunning
            (activateRunningSession (startingState resolvePath s launch newId newGen now)
              (createdRunning resolvePath launch newId newGen now s.activeClientId)
              params.resetBuffer none).1.recentSessions
            (activateRunningSession (startingState resolvePath s launch newId newGen now)
              (createdRunning resolvePath launch newId newGen now s.activeClientId)
              params.resetBuffer none).2.2.session },
       BrokerEffect.sendStatus "starting"
          (some ("Starting in " ++ (normalizedLaunchOf resolvePath launch).cwd)) ::
        BrokerEffect.spawnPty newGen ::
        (activateRunningSession (startingState resolvePath s launch newId newGen now)
          (createdRunning resolvePath launch newId newGen now s.activeClientId)
          params.resetBuffer none).2.1) := by
    unfold startPtySession
    rw [hlookup]
    simp only [if_neg hnostop]
    rfl
  rw [hstep]
  set sB : BrokerState := startingState resolvePath s launch newId newGen now with hsB
  set run0 : WebRunningSession :=
    createdRunning resolvePath launch newId newGen now s.activeClientId with hrun0
  have hreg : (activateRunningSession sB run0 params.resetBuffer none).1.runningSessions =
      s.runningSessions ++
        [(activateRunningSession sB run0 params.resetBuffer none).2.2] := by
    unfold activateRunningSession
    simp only
    show (startingState resolvePath s launch newId newGen now).runningSessions.map _ = _
    rw [startingState]
    simp only
    rw [List.map_append]
    rw [map_update_untouched s.runningSessions run0.session.id _ (by
      intro x hx
      have hid : run0.session.id = newId := rfl
      rw [hid]
      exact hne x hx)]
    rw [List.map_cons, List.map_nil, if_pos rfl]
  refine ⟨⟨_, rfl, rfl⟩, ?_, ?_, ?_⟩
  · exact List.mem_cons_of_mem _ (List.mem_cons_self _ _)
  · refine ⟨(activateRunningSession sB run0 params.resetBuffer none).2.2, hreg, rfl, rfl, rfl⟩
  · show sessionIds { (activateRunningSession sB run0 params.resetBuffer none).1 with
        recentSessions := _ } = sessionIds s ++ [newId]
    have h1 : sessionIds { (activateRunningSession sB run0 params.resetBuffer none).1 with
        recentSessions := upsertRecentSessionRunning
          (activateRunningSession sB run0 params.resetBuffer none).1.recentSessions
          (activateRunningSession sB run0 params.resetBuffer none).2.2.session } =
        sessionIds (activateRunningSession sB run0 params.resetBuffer none).1 := rfl
    rw [h1]
    unfold sessionIds
    rw [hreg, List.map_append]
    rfl

/-- A truthy optional string is `some` of its `getD ""` value. -/
theorem jsTruthyStr_eq_some (o : Option String) (h : jsTruthyStr o = true) :
    o = some (o.getD "") := by
  cases o with
  | none => simp [jsTruthyStr] at h
  | some v => rfl

/-- A launch request for `/repo` with every optional field defaulted. -/
def c1launch : WebLaunchConfig := { cwd := "/repo" }

/-- Empty launch defaults. -/
def c1launchDefaults : WebLaunchDefaults :=
  { provider := none, model := none, sessionPath := none, noSession := false }

/-- A pre-existing active session `x` for the `/repo` launch. -/
def c1exSession : WebActiveSession :=
  { id := "x", projectId := none, cwd := "/repo", provider := none, model := none,
    sessionPath := none, noSession := false, startedAt := "t0", outputChars := 0,
    outputTruncated := false, attachOwnerClientId := none, journalBytes := 0,
    journalTruncated := false, journalGeneration := 0 }

/-- The registry entry for session `x`. -/
def c1exRunning : WebRunningSession :=
  { session := c1exSession, launch := c1launch, ptyGen := 0, outputBuffer := [],
    outputTruncated := false, journalPath := "x.log", journalGeneration := 0,
    journalBytes := 0, journalTruncated := false }

/-- A broker already running session `x` for the `/repo` launch. -/
def c1exState : BrokerState :=
  { runningSessions := [c1exRunning], activeSessionId := some "x", activePtyGen := some 0,
    recentSessions := [], outputBuffer := [], latestClientCols := 120, latestClientRows := 36,
    sessionState := "running", sessionReason := none, activeClientId := none,
    activeLaunchForRestart := c1launch, launchDefaults := c1launchDefaults }

/-- A broker with no running sessions. -/
def c1emptyState : BrokerState :=
  { runningSessions := [], activeSessionId := none, activePtyGen := none,
    recentSessions := [], outputBuffer := [], latestClientCols := 120, latestClientRows := 36,
    sessionState := "stopped", sessionReason := none, activeClientId := none,
    activeLaunchForRestart := c1launch, launchDefaults := c1launchDefaults }

/-- C1 (amended): when no registered session matches the launch signature or
its session path before the first start, a first start that creates a fresh
session with id `newId1` is followed by: a second start of the same launch
without `forceNew` and without an explicit session id returning the same id
`newId1` and spawning no PTY, while a `forceNew` start instead returns the
fresh id `newId2 ≠ newId1` and spawns a new PTY.  The no-prior-match
hypotheses exclude the Map-iteration-order interference in which an older
same-signature session is found first. -/
theorem c1_signature_reuse_amended
    (resolvePath : String → String) (s0 : BrokerState) (launch : WebLaunchConfig)
    (params1 params2 params3 : StartParams)
    (newId1 newId2 : String) (g1 g2 g3 : Nat) (t1 t2 t3 : String)
    (hnopath : findRunningSessionBySessionPath s0
      ((normalizedLaunchOf resolvePath launch).sessionPath.getD "") = none)
    (hnolaunch : findRunningSessionByLaunch s0 (normalizedLaunchOf resolvePath launch) = none)
    (hlookup1 : reuseLookup resolvePath s0 launch params1 = none)
    (hnostop1 : ¬(params1.forceNew = true ∧ params1.replaceActive = true ∧
      s0.activeSessionId.isSome = true))
    (hfresh1 : newId1 ∉ sessionIds s0)
    (hp2force : params2.forceNew = false) (hp2sid : params2.sessionId = none)
    (hp3force : params3.forceNew = true) (hp3rep : params3.replaceActive = false)
    (hfresh2 : newId2 ∉ sessionIds
      (startPtySession resolvePath s0 launch params1 false newId1 g1 t1).2.1) :
    (∃ a, (startPtySession resolvePath s0 launch params1 false newId1 g1 t1).1 = .ok a ∧
      a.id = newId1) ∧
    (∃ b, (startPtySession resolvePath
        (startPtySession resolvePath s0 launch params1 false newId1 g1 t1).2.1
        launch params2 false newId2 g2 t2).1 = .ok b ∧ b.id = newId1) ∧
    (∀ g, BrokerEffect.spawnPty g ∉ (startPtySession resolvePath
        (startPtySession resolvePath s0 launch params1 false newId1 g1 t1).2.1
        launch params2 false newId2 g2 t2).2.2) ∧
    (∃ c, (startPtySession resolvePath
        (startPtySession resolvePath s0 launch params1 false newId1 g1 t1).2.1
        launch params3 false newId2 g3 t3).1 = .ok c ∧ c.id = newId2 ∧ c.id ≠ newId1) ∧
    BrokerEffect.spawnPty g3 ∈ (startPtySession resolvePath
        (startPtySession resolvePath s0 launch params1 false newId1 g1 t1).2.1
        launch params3 false newId2 g3 t3).2.2 := by
  obtain ⟨⟨a, ha, haid⟩, hsp1, ⟨newRun, hR1, hid, hlau, hpath⟩, hids1⟩ :=
    startPtySession_create resolvePath s0 launch params1 newId1 g1 t1 hlookup1 hnostop1 hfresh1
  set S1 : BrokerState :=
    (startPtySession resolvePath s0 launch params1 false newId1 g1 t1).2.1 with hS1
  have hor : ∀ x : Option WebRunningSession, (none : Option WebRunningSession).or x = x :=
    fun x => rfl
  have hfind2 : reuseLookup resolvePath S1 launch params2 = some newRun := by
    unfold reuseLookup
    rw [if_neg (by simp [hp2force])]
    rw [hp2sid]
    rw [show jsTruthyStr (none : Option String) = false from rfl]
    rw [if_neg (by decide : ¬(false = true))]
    rw [hor]
    cases ht : jsTruthyStr (normalizedLaunchOf resolvePath launch).sessionPath with
    | true =>
      rw [if_pos rfl]
      unfold findRunningSessionBySessionPath at hnopath ⊢
      rw [hR1, find?_append_or, hnopath, hor]
      have hsome := jsTruthyStr_eq_some _ ht
      rw [List.find?_cons_of_pos _ (by simp [hpath, ht, ← hsome])]
    | false =>
      rw [if_neg (by decide : ¬(false = true))]
      unfold findRunningSessionByLaunch at hnolaunch ⊢
      rw [hR1, find?_append_or, hnolaunch, hor]
      rw [List.find?_cons_of_pos _ (by simp [hlau])]
  obtain ⟨⟨b, hb, hbid⟩, hnospawn, -⟩ :=
    startPtySession_reuse resolvePath S1 launch params2 false newId2 g2 t2 newRun hfind2
  have hlookup3 : reuseLookup resolvePath S1 launch params3 = none := by
    unfold reuseLookup
    rw [if_pos hp3force]
  have hnostop3 : ¬(params3.forceNew = true ∧ params3.replaceActive = true ∧
      S1.activeSessionId.isSome = true) := by
    simp [hp3rep]
  obtain ⟨⟨c, hc, hcid⟩, hcsp, -, -⟩ :=
    startPtySession_create resolvePath S1 launch params3 newId2 g3 t3 hlookup3 hnostop3 hfresh2
  have hmem1 : newId1 ∈ sessionIds S1 := by
    rw [hids1]
    exact List.mem_append_right _ (List.mem_singleton.mpr rfl)
  refine ⟨⟨a, ha, haid⟩, ⟨b, hb, ?_⟩, hnospawn, ⟨c, hc, hcid, ?_⟩, hcsp⟩
  · rw [hbid, hid]
  · rw [hcid]
    intro he
    exact hfresh2 (by rw [he]; exact hmem1)

/-- C1 counterexample: starting from a broker already running session `x`
for the `/repo` launch, a `forceNew` start of the same launch creates
session `y`; while `y` is still running, a second start of the identical
launch without `forceNew` returns session `x`, not `y`, because the
signature lookup scans the registry in insertion order and finds the older
matching session first.  This refutes the claim for pairs whose first start
was a `forceNew` duplicate of an existing signature. -/
theorem c1_signature_reuse_counterexample :
    ((startPtySession (fun p => p) c1exState c1launch ⟨false, true, false, none⟩
        false "y" 1 "t1").1.map (fun a => a.id) = Except.ok "y") ∧
    "y" ∈ sessionIds (startPtySession (fun p => p) c1exState c1launch
        ⟨false, true, false, none⟩ false "y" 1 "t1").2.1 ∧
    ((startPtySession (fun p => p)
        (startPtySession (fun p => p) c1exState c1launch ⟨false, true, false, none⟩
          false "y" 1 "t1").2.1
        c1launch ⟨false, false, false, none⟩ false "z" 2 "t2").1.map (fun a => a.id) =
      Except.ok "x") ∧
    ("x" : String) ≠ "y" := by
  decide

/-- C1 witness: on an empty broker, a plain start creates session `a1`, a
repeat start of the same launch returns `a1` without spawning, and a
`forceNew` start returns the fresh id `b2 ≠ a1` and spawns. -/
theorem c1_signature_reuse_amended_witness :
    (∃ a, (startPtySession (fun p => p) c1emptyState c1launch ⟨false, false, false, none⟩
        false "a1" 1 "t1").1 = .ok a ∧ a.id = "a1") ∧
    (∃ b, (startPtySession (fun p => p)
        (startPtySession (fun p => p) c1emptyState c1launch ⟨false, false, false, none⟩
          false "a1" 1 "t1").2.1
        c1launch ⟨false, false, false, none⟩ false "b2" 2 "t2").1 = .ok b ∧ b.id = "a1") ∧
    (∀ g, BrokerEffect.spawnPty g ∉ (startPtySession (fun p => p)
        (startPtySession (fun p => p) c1emptyState c1launch ⟨false, false, false, none⟩
          false "a1" 1 "t1").2.1
        c1launch ⟨false, false, false, none⟩ false "b2" 2 "t2").2.2) ∧
    (∃ c, (startPtySession (fun p => p)
        (startPtySession (fun p => p) c1emptyState c1launch ⟨false, false, false, none⟩
          false "a1" 1 "t1").2.1
        c1launch ⟨false, true, false, none⟩ false "b2" 3 "t3").1 = .ok c ∧
      c.id = "b2" ∧ c.id ≠ "a1") ∧
    BrokerEffect.spawnPty 3 ∈ (startPtySession (fun p => p)
        (startPtySession (fun p => p) c1emptyState c1launch ⟨false, false, false, none⟩
          false "a1" 1 "t1").2.1
        c1launch ⟨false, true, false, none⟩ false "b2" 3 "t3").2.2 :=
  c1_signature_reuse_amended (fun p => p) c1emptyState c1launch
    ⟨false, false, false, none⟩ ⟨false, false, false, none⟩ ⟨false, true, false, none⟩
    "a1" "b2" 1 2 3 "t1" "t2" "t3"
    (by decide) (by decide) (by decide) (by decide) (by decide)
    rfl rfl rfl rfl (by decide)

end PiWeb
